import Mathlib

/-!
Shallow embedding of the ferry queue simulator of `src/ferry-backend.js`
together with the report helper of `src/unnamed/part_000` (the `relatorios`
module).  JS numbers are modelled as rationals; `Math.random()` is modelled
as an explicit stream `rng : Nat -> Rat` consumed at an index threaded
through the simulation state, so every run is a pure function of the
configuration and the stream.
-/

/-- Vehicle type: the 80/20 carro/caminhao split of the source. -/
inductive Tipo
  | carro
  | caminhao
  deriving DecidableEq, Repr

/-- Class `Veiculo` of `src/ferry-backend.js` (lines 102-111).  The JS id
string `Math.random().toString(36).substr(2, 9)` is modelled by the raw
random draw itself; no reservation attribute exists in the source class. -/
structure Veiculo where
  id : ℚ
  tipo : Tipo
  horarioChegada : ℚ
  horarioEmbarque : Option ℚ
  horarioDesembarque : Option ℚ
  tempoEspera : ℚ
  deriving DecidableEq, Repr

/-- Simulation configuration: the shape of the module level `CONFIG` object
of `src/ferry-backend.js` (lines 52-89).  A `SimuladorFerries` instance
holds the spread-merge of `CONFIG` with the per-run overrides, modelled by
the caller passing the already merged record. -/
structure Config where
  numEmbarcacoes : ℕ
  capacidadeVeiculos : ℕ
  frequenciaSaidaMinutos : ℚ
  horarioInicio : ℚ
  horarioFim : ℚ
  horasOperacao : ℚ
  veiculosDiarios : ℚ
  percentualPico : ℚ
  percentualCarros : ℚ
  percentualCaminhoes : ℚ
  tempoEmbarqueMinutos : ℚ
  tempoTravessiaMinutos : ℚ
  tempoDesembarqueSegundos : ℚ
  tempoEsperaNormalMinutos : ℚ
  tempoEsperaPicoMinutos : ℚ
  manutencaoDias : ℚ
  manutencaoHoras : ℚ
  taxaFalhas : ℚ
  picos : List (ℚ × ℚ)
  deriving DecidableEq, Repr

/-- The module level default configuration `CONFIG` (lines 52-89). -/
def CONFIG : Config where
  numEmbarcacoes := 4
  capacidadeVeiculos := 50
  frequenciaSaidaMinutos := 60
  horarioInicio := 6
  horarioFim := 22
  horasOperacao := 16
  veiculosDiarios := 1200
  percentualPico := 2/5
  percentualCarros := 4/5
  percentualCaminhoes := 1/5
  tempoEmbarqueMinutos := 15
  tempoTravessiaMinutos := 80
  tempoDesembarqueSegundos := 15
  tempoEsperaNormalMinutos := 20
  tempoEsperaPicoMinutos := 90
  manutencaoDias := 30
  manutencaoHoras := 4
  taxaFalhas := 1/20
  picos := [(7, 9), (17, 19)]

/-- Class `Embarcacao` (lines 129-201). -/
structure Embarcacao where
  id : ℕ
  capacidade : ℕ
  veiculosAbordo : List Veiculo
  disponivel : Bool
  emManutencao : Bool
  ultimaManutencao : ℚ
  proximaManutencao : ℚ
  viagensRealizadas : ℕ
  tempoTotalOcupado : ℚ
  deriving DecidableEq, Repr

/-- The `new Embarcacao(id)` (lines 130-140): the capacity and the first
scheduled maintenance read the global `CONFIG`, not the per-run merged
configuration. -/
def Embarcacao.init (id : ℕ) : Embarcacao where
  id := id
  capacidade := CONFIG.capacidadeVeiculos
  veiculosAbordo := []
  disponivel := true
  emManutencao := false
  ultimaManutencao := 0
  proximaManutencao := CONFIG.manutencaoDias * 24 * 60
  viagensRealizadas := 0
  tempoTotalOcupado := 0

/-- The `Embarcacao.embarcar` (lines 152-164): takes a prefix of the given
queue limited by the free space, stamps the boarding time and the wait
`horarioAtual - horarioChegada` (no clamping in the source), and returns
the number boarded. -/
def Embarcacao.embarcar (e : Embarcacao) (veiculos : List Veiculo) (horarioAtual : ℚ) :
    Embarcacao × ℕ :=
  let espacoDisponivel := e.capacidade - e.veiculosAbordo.length
  let veiculosEmbarcar := (veiculos.take espacoDisponivel).map fun v =>
    { v with horarioEmbarque := some horarioAtual,
             tempoEspera := horarioAtual - v.horarioChegada }
  ({ e with veiculosAbordo := e.veiculosAbordo ++ veiculosEmbarcar }, veiculosEmbarcar.length)

/-- The `Embarcacao.desembarcar` (lines 171-181). -/
def Embarcacao.desembarcar (e : Embarcacao) (horarioAtual : ℚ) :
    Embarcacao × List Veiculo :=
  let veiculosDesembarcados := e.veiculosAbordo.map fun v =>
    { v with horarioDesembarque := some horarioAtual }
  ({ e with veiculosAbordo := [], viagensRealizadas := e.viagensRealizadas + 1 },
   veiculosDesembarcados)

/-- The `Embarcacao.necessitaManutencao` (lines 184-186). -/
def Embarcacao.necessitaManutencao (e : Embarcacao) (horarioAtual : ℚ) : Bool :=
  decide (e.proximaManutencao ≤ horarioAtual) && !e.emManutencao

/-- The `Embarcacao.iniciarManutencao` (lines 189-193). -/
def Embarcacao.iniciarManutencao (e : Embarcacao) (horarioAtual : ℚ) : Embarcacao :=
  { e with emManutencao := true, disponivel := false, ultimaManutencao := horarioAtual }

/-- The `Embarcacao.finalizarManutencao` (lines 196-200): the rescheduling
reads the global `CONFIG`, not the per-run config. -/
def Embarcacao.finalizarManutencao (e : Embarcacao) (horarioAtual : ℚ) : Embarcacao :=
  { e with emManutencao := false, disponivel := true,
           proximaManutencao := horarioAtual + CONFIG.manutencaoDias * 24 * 60 }

/-- Entries of the `eventos` log pushed inside `processar`. -/
inductive Evento
  | chegada (horario : ℚ) (quantidade : ℕ) (filaTotal : ℕ)
  | manutencaoInicio (embarcacao : ℕ) (horario : ℚ)
  | manutencaoFim (embarcacao : ℕ) (horario : ℚ)
  | falha (embarcacao : ℕ) (horario : ℚ)
  | embarque (embarcacao : ℕ) (horario : ℚ) (veiculos : ℕ) (filaRestante : ℕ)
  | desembarque (embarcacao : ℕ) (horario : ℚ) (veiculos : ℕ)
  deriving DecidableEq, Repr

/-- Mutable state of one `SimuladorFerries` instance (lines 229-246)
together with the position in the random stream. -/
structure SimState where
  config : Config
  embarcacoes : List Embarcacao
  fila : List Veiculo
  veiculosProcessados : List Veiculo
  eventos : List Evento
  horarioAtual : ℚ
  rng : ℕ → ℚ
  rngIdx : ℕ

/-- The `ehHorarioPico` (lines 258-261). -/
def ehHorarioPico (picos : List (ℚ × ℚ)) (horario : ℚ) : Bool :=
  let hora : ℤ := ⌊horario / 60⌋
  picos.any fun pico => decide ((pico.1 : ℚ) ≤ (hora : ℚ)) && decide ((hora : ℚ) < pico.2)

/-- Per-vehicle random draws of the generation loop of
`gerarChegadaVeiculos` (lines 281-288): arrival offset, vehicle type, id,
in source order. -/
def gerarLoop (percentualCarros horarioAtual : ℚ) (rng : ℕ → ℚ) :
    ℕ → ℕ → List Veiculo × ℕ
  | 0, idx => ([], idx)
  | n + 1, idx =>
    let minutoChegada := horarioAtual + rng idx * 60
    let tipo := if rng (idx + 1) < percentualCarros then Tipo.carro else Tipo.caminhao
    let v : Veiculo :=
      { id := rng (idx + 2), tipo := tipo, horarioChegada := minutoChegada,
        horarioEmbarque := none, horarioDesembarque := none, tempoEspera := 0 }
    let resto := gerarLoop percentualCarros horarioAtual rng n (idx + 3)
    (v :: resto.1, resto.2)

/-- The `gerarChegadaVeiculos` (lines 275-292).  `Math.round` on rationals is
Mathlib `round` (half rounds up, as in JS); the final JS `Array.sort` by
arrival time is a stable sort, modelled by insertion sort (any two stable
sorts under the same key agree). -/
def gerarChegadaVeiculos (veiculosDiarios horasOperacao : ℚ) (picos : List (ℚ × ℚ))
    (percentualCarros horarioAtual : ℚ) (rng : ℕ → ℚ) (idx : ℕ) : List Veiculo × ℕ :=
  let veiculosHora := veiculosDiarios / horasOperacao
  let multiplicadorPico : ℚ := if ehHorarioPico picos horarioAtual then 5/2 else 1
  let veiculosEstaHora := (round (veiculosHora * multiplicadorPico)).toNat
  let gerados := gerarLoop percentualCarros horarioAtual rng veiculosEstaHora idx
  (gerados.1.insertionSort (fun a b => a.horarioChegada ≤ b.horarioChegada), gerados.2)

/-- The `new SimuladorFerries(config)` (lines 230-246): the caller supplies the
already merged configuration; `idx` is the current position of the shared
random stream. -/
def SimuladorFerries.init (config : Config) (rng : ℕ → ℚ) (idx : ℕ) : SimState where
  config := config
  embarcacoes := (List.range config.numEmbarcacoes).map fun i => Embarcacao.init (i + 1)
  fila := []
  veiculosProcessados := []
  eventos := []
  horarioAtual := config.horarioInicio * 60
  rng := rng
  rngIdx := idx

/-- Body of `this.embarcacoes.forEach` inside `processar` (lines 343-412)
for one vessel: scheduled maintenance, stochastic failure, then the
board/cross/disembark batch.  The `setTimeout(() => disponivel = true, 30)`
of the failure branch is an asynchronous timer that fires only after the
synchronous loop has finished, so within the run it has no effect and the
vessel simply stays unavailable. -/
def processVessel (cfg : Config) (s : SimState) (e : Embarcacao) : SimState × Embarcacao :=
  let inicio :=
    if e.necessitaManutencao s.horarioAtual then
      ({ s with eventos := s.eventos ++ [Evento.manutencaoInicio e.id s.horarioAtual] },
       e.iniciarManutencao s.horarioAtual)
    else (s, e)
  let s1 := inicio.1
  let e1 := inicio.2
  if e1.emManutencao then
    if e1.ultimaManutencao + cfg.manutencaoHoras * 60 ≤ s1.horarioAtual then
      ({ s1 with eventos := s1.eventos ++ [Evento.manutencaoFim e1.id s1.horarioAtual] },
       e1.finalizarManutencao s1.horarioAtual)
    else (s1, e1)
  else
    let sorteio := s1.rng s1.rngIdx
    let s2 := { s1 with rngIdx := s1.rngIdx + 1 }
    if sorteio < cfg.taxaFalhas / 1000 then
      ({ s2 with eventos := s2.eventos ++ [Evento.falha e1.id s2.horarioAtual] },
       { e1 with disponivel := false })
    else if e1.disponivel = true ∧ 0 < s2.fila.length ∧ e1.veiculosAbordo.length = 0 then
      let emb := e1.embarcar s2.fila s2.horarioAtual
      let e2 := emb.1
      let embarcados := emb.2
      let s3 := { s2 with fila := s2.fila.drop embarcados,
                          eventos := s2.eventos ++
                            [Evento.embarque e1.id s2.horarioAtual embarcados
                              (s2.fila.length - embarcados)] }
      let horarioDesembarque := s3.horarioAtual + cfg.tempoTravessiaMinutos
      let des := e2.desembarcar horarioDesembarque
      let e3 := { des.1 with
                    tempoTotalOcupado := des.1.tempoTotalOcupado + cfg.tempoTravessiaMinutos }
      ({ s3 with veiculosProcessados := s3.veiculosProcessados ++ des.2,
                 eventos := s3.eventos ++
                   [Evento.desembarque e1.id horarioDesembarque des.2.length] },
       e3)
    else (s2, e1)

/-- The `this.embarcacoes.forEach(...)` (line 343): the vessels are processed
in list order, threading the shared queue/history/event state. -/
def forEachEmb (cfg : Config) : SimState → List Embarcacao → SimState × List Embarcacao
  | s, [] => (s, [])
  | s, e :: resto =>
    let r1 := processVessel cfg s e
    let r2 := forEachEmb cfg r1.1 resto
    (r2.1, r1.2 :: r2.2)

/-- One iteration of the main `while` loop of `processar` (lines 326-416):
arrivals are generated and appended, each vessel is processed, and the
clock advances one step. -/
def tick (s : SimState) : SimState :=
  let ger := gerarChegadaVeiculos s.config.veiculosDiarios s.config.horasOperacao
    s.config.picos s.config.percentualCarros s.horarioAtual s.rng s.rngIdx
  let novosVeiculos := ger.1
  let s1 := { s with fila := s.fila ++ novosVeiculos, rngIdx := ger.2 }
  let s2 :=
    if 0 < novosVeiculos.length then
      { s1 with eventos := s1.eventos ++
          [Evento.chegada s1.horarioAtual novosVeiculos.length s1.fila.length] }
    else s1
  let r := forEachEmb s.config s2 s2.embarcacoes
  { r.1 with embarcacoes := r.2,
             horarioAtual := r.1.horarioAtual + s.config.frequenciaSaidaMinutos }

/-- The main `while (this.horarioAtual < horarioFinal)` loop (line 326),
truncated at `n` iterations (`n` is a fuel bound; when the step size is
positive the loop finishes within `numTicks` iterations). -/
def loopN : ℕ → SimState → SimState
  | 0, s => s
  | n + 1, s =>
    if s.horarioAtual < s.config.horarioFim * 60 then loopN n (tick s) else s

/-- Number of iterations the `while` loop performs when the step size is
positive. -/
def numTicks (cfg : Config) : ℕ :=
  (⌈(cfg.horarioFim * 60 - cfg.horarioInicio * 60) / cfg.frequenciaSaidaMinutos⌉).toNat

/-- Final state of `SimuladorFerries.processar` started at position `idx`
of the random stream. -/
def processarStateFrom (cfg : Config) (rng : ℕ → ℚ) (idx : ℕ) : SimState :=
  loopN (numTicks cfg) (SimuladorFerries.init cfg rng idx)

/-- Final state of `processar` on a freshly constructed simulator. -/
def processarState (cfg : Config) (rng : ℕ → ℚ) : SimState :=
  processarStateFrom cfg rng 0

/-- One entry of `resultados.utilizacaoEmbarcacoes` (lines 436-441). -/
structure Utilizacao where
  id : ℕ
  percentualUtilizacao : ℚ
  viagensRealizadas : ℕ
  deriving DecidableEq, Repr

/-- The `resultados` object returned by `processar` (lines 312-321). -/
structure Resultados where
  tempoSimulacao : ℚ
  veiculosProcessados : ℕ
  veiculosEmFila : ℕ
  tempoMedioEspera : ℚ
  tempoMaximoEspera : ℚ
  utilizacaoEmbarcacoes : List Utilizacao
  viagensRealizadas : ℕ
  eventos : List Evento
  deriving DecidableEq, Repr

/-- The final-metrics block of `processar` (lines 418-448). -/
def finalize (s : SimState) : Resultados :=
  let horarioFinal := s.config.horarioFim * 60
  let tempoTotalSimulacao := horarioFinal - s.config.horarioInicio * 60
  let temposEspera := s.veiculosProcessados.map (·.tempoEspera)
  { tempoSimulacao := tempoTotalSimulacao / 60,
    veiculosProcessados := s.veiculosProcessados.length,
    veiculosEmFila := s.fila.length,
    tempoMedioEspera :=
      if 0 < temposEspera.length then temposEspera.sum / (temposEspera.length : ℚ) else 0,
    tempoMaximoEspera :=
      match temposEspera with
      | [] => 0
      | t :: resto => resto.foldl max t,
    utilizacaoEmbarcacoes := s.embarcacoes.map fun e =>
      { id := e.id,
        percentualUtilizacao := e.tempoTotalOcupado / tempoTotalSimulacao * 100,
        viagensRealizadas := e.viagensRealizadas },
    viagensRealizadas := (s.embarcacoes.map (·.viagensRealizadas)).sum,
    eventos := s.eventos }

/-- The `SimuladorFerries.processar` (lines 311-449). -/
def processar (cfg : Config) (rng : ℕ → ℚ) : Resultados :=
  finalize (processarState cfg rng)

/-- The `melhorias` object of `simularComReservas` (lines 492-497);
the `.toFixed(2) + quote` string formatting is dropped, keeping the
numeric values. -/
structure Melhorias where
  reducaoTempoEspera : ℚ
  reducaoFila : ℤ
  melhoriaUtilizacao : ℚ
  deriving DecidableEq, Repr

/-- Return value of `simularComReservas` (lines 489-498). -/
structure Comparacao where
  semReservas : Resultados
  comReservas : Resultados
  melhorias : Melhorias
  deriving DecidableEq, Repr

/-- The `SimuladorFerries.simularComReservas` (lines 466-499): a baseline
`processar`, then a second simulator constructed with `percentualPico`
scaled by `1 - percentualReservas`, continuing the same random stream.
`melhoriaUtilizacao` is, as in the source, the mean utilization of the
second run (not a difference between the two runs). -/
def simularComReservas (cfg : Config) (rng : ℕ → ℚ) (percentualReservas : ℚ) : Comparacao :=
  let s1 := loopN (numTicks cfg) (SimuladorFerries.init cfg rng 0)
  let resultadoSemReservas := finalize s1
  let configComReservas :=
    { cfg with percentualPico := cfg.percentualPico * (1 - percentualReservas) }
  let s2 := loopN (numTicks configComReservas)
    (SimuladorFerries.init configComReservas rng s1.rngIdx)
  let resultadoComReservas := finalize s2
  { semReservas := resultadoSemReservas,
    comReservas := resultadoComReservas,
    melhorias :=
      { reducaoTempoEspera :=
          (resultadoSemReservas.tempoMedioEspera - resultadoComReservas.tempoMedioEspera) /
            resultadoSemReservas.tempoMedioEspera * 100,
        reducaoFila := (resultadoSemReservas.veiculosEmFila : ℤ) -
          (resultadoComReservas.veiculosEmFila : ℤ),
        melhoriaUtilizacao :=
          (resultadoComReservas.utilizacaoEmbarcacoes.map (·.percentualUtilizacao)).sum /
            (resultadoComReservas.utilizacaoEmbarcacoes.length : ℚ) } }

/-- The `GeradorRelatorios._mediaUtilizacao` of `src/unnamed/part_000`: the
mean of the per-vessel utilizations with each term capped at 100. -/
def mediaUtilizacao (lista : List Utilizacao) : ℚ :=
  if lista.length = 0 then 0
  else (lista.map fun e => min 100 e.percentualUtilizacao).sum / (lista.length : ℚ)

/-- The arrival quantity recorded by a `chegada` event, 0 for any other
event. -/
def Evento.quantidadeChegada : Evento → ℕ
  | .chegada _ quantidade _ => quantidade
  | _ => 0

/-- Total number of vehicles the arrival generator produced during a run,
as recorded by the `chegada` entries of the event log. -/
def chegadaTotal (eventos : List Evento) : ℕ :=
  (eventos.map Evento.quantidadeChegada).sum

/-- A `desembarque` event departs within the given capacity; other events
hold trivially. -/
def Evento.cabeNaCapacidade (cap : ℕ) : Evento → Prop
  | .desembarque _ _ veiculos => veiculos ≤ cap
  | _ => True

instance (cap : ℕ) (ev : Evento) : Decidable (ev.cabeNaCapacidade cap) := by
  cases ev <;> simp [Evento.cabeNaCapacidade] <;> infer_instance

/-- A vehicle whose recorded wait is exactly its boarding time minus its
arrival time. -/
def EsperaExata (v : Veiculo) : Prop :=
  ∃ t, v.horarioEmbarque = some t ∧ v.tempoEspera = t - v.horarioChegada

/-- A `manutencaoInicio` entry never occurs; other events hold trivially. -/
def Evento.semManutencaoInicio : Evento → Prop
  | .manutencaoInicio _ _ => False
  | _ => True

instance (ev : Evento) : Decidable ev.semManutencaoInicio := by
  cases ev <;> simp [Evento.semManutencaoInicio] <;> infer_instance

theorem chegadaTotal_append (l₁ l₂ : List Evento) :
    chegadaTotal (l₁ ++ l₂) = chegadaTotal l₁ + chegadaTotal l₂ := by
  simp [chegadaTotal]

theorem processVessel_horarioAtual (cfg : Config) (s : SimState) (e : Embarcacao) :
    (processVessel cfg s e).1.horarioAtual = s.horarioAtual := by
  unfold processVessel
  dsimp only
  split_ifs <;> rfl

theorem processVessel_config (cfg : Config) (s : SimState) (e : Embarcacao) :
    (processVessel cfg s e).1.config = s.config := by
  unfold processVessel
  dsimp only
  split_ifs <;> rfl

theorem processVessel_embarcacoes (cfg : Config) (s : SimState) (e : Embarcacao) :
    (processVessel cfg s e).1.embarcacoes = s.embarcacoes := by
  unfold processVessel
  dsimp only
  split_ifs <;> rfl

theorem processVessel_rng (cfg : Config) (s : SimState) (e : Embarcacao) :
    (processVessel cfg s e).1.rng = s.rng := by
  unfold processVessel
  dsimp only
  split_ifs <;> rfl

theorem forEachEmb_horarioAtual (cfg : Config) (l : List Embarcacao) :
    ∀ s : SimState, (forEachEmb cfg s l).1.horarioAtual = s.horarioAtual := by
  induction l with
  | nil => intro s; rfl
  | cons e resto ih =>
    intro s
    simp only [forEachEmb]
    rw [ih, processVessel_horarioAtual]

theorem forEachEmb_config (cfg : Config) (l : List Embarcacao) :
    ∀ s : SimState, (forEachEmb cfg s l).1.config = s.config := by
  induction l with
  | nil => intro s; rfl
  | cons e resto ih =>
    intro s
    simp only [forEachEmb]
    rw [ih, processVessel_config]

theorem forEachEmb_rng (cfg : Config) (l : List Embarcacao) :
    ∀ s : SimState, (forEachEmb cfg s l).1.rng = s.rng := by
  induction l with
  | nil => intro s; rfl
  | cons e resto ih =>
    intro s
    simp only [forEachEmb]
    rw [ih, processVessel_rng]

theorem tick_config (s : SimState) : (tick s).config = s.config := by
  unfold tick
  dsimp only
  rw [forEachEmb_config]
  split_ifs <;> rfl

theorem tick_horarioAtual (s : SimState) :
    (tick s).horarioAtual = s.horarioAtual + s.config.frequenciaSaidaMinutos := by
  unfold tick
  dsimp only
  rw [forEachEmb_horarioAtual]
  split_ifs <;> rfl

theorem tick_rng (s : SimState) : (tick s).rng = s.rng := by
  unfold tick
  dsimp only
  rw [forEachEmb_rng]
  split_ifs <;> rfl

theorem loopN_config (n : ℕ) : ∀ s : SimState, (loopN n s).config = s.config := by
  induction n with
  | zero => intro s; rfl
  | succ n ih =>
    intro s
    rw [loopN]
    split_ifs
    · rw [ih, tick_config]
    · rfl

/-- If enough fuel is supplied the truncated loop reaches the terminal
condition of the `while` loop. -/
theorem loopN_fim_le (n : ℕ) :
    ∀ s : SimState,
      s.config.horarioFim * 60 ≤ s.horarioAtual + (n : ℚ) * s.config.frequenciaSaidaMinutos →
      s.config.horarioFim * 60 ≤ (loopN n s).horarioAtual := by
  induction n with
  | zero =>
    intro s h
    simpa using h
  | succ n ih =>
    intro s h
    rw [loopN]
    split_ifs with hcond
    · have hrec := ih (tick s)
      rw [tick_config, tick_horarioAtual] at hrec
      apply hrec
      push_cast at h ⊢
      linarith
    · exact not_lt.mp hcond

theorem numTicks_spec (cfg : Config) (hf : 0 < cfg.frequenciaSaidaMinutos) :
    cfg.horarioFim * 60 ≤
      cfg.horarioInicio * 60 + (numTicks cfg : ℚ) * cfg.frequenciaSaidaMinutos := by
  unfold numTicks
  set f := cfg.frequenciaSaidaMinutos with hfdef
  set q := (cfg.horarioFim * 60 - cfg.horarioInicio * 60) / f with hq
  have hqf : q * f = cfg.horarioFim * 60 - cfg.horarioInicio * 60 :=
    div_mul_cancel₀ _ (ne_of_gt hf)
  have h1 : q ≤ ((⌈q⌉ : ℤ) : ℚ) := Int.le_ceil q
  have h2 : ((⌈q⌉ : ℤ) : ℚ) ≤ ((⌈q⌉.toNat : ℕ) : ℚ) := by
    exact_mod_cast Int.self_le_toNat _
  have h3 : q * f ≤ ((⌈q⌉.toNat : ℕ) : ℚ) * f :=
    mul_le_mul_of_nonneg_right (h1.trans h2) hf.le
  rw [hqf] at h3
  linarith

/-- With a positive step size the run actually reaches the end of the
operating window: the `while` condition is false at the final state. -/
theorem processarStateFrom_termina (cfg : Config) (rng : ℕ → ℚ) (idx : ℕ)
    (hf : 0 < cfg.frequenciaSaidaMinutos) :
    cfg.horarioFim * 60 ≤ (processarStateFrom cfg rng idx).horarioAtual := by
  unfold processarStateFrom
  have := loopN_fim_le (numTicks cfg) (SimuladorFerries.init cfg rng idx)
  simp only [SimuladorFerries.init] at this
  exact this (numTicks_spec cfg hf)

theorem processVessel_conserva (cfg : Config) (s : SimState) (e : Embarcacao)
    (habordo : e.veiculosAbordo = []) :
    (processVessel cfg s e).2.veiculosAbordo = [] ∧
    (processVessel cfg s e).1.veiculosProcessados.length + (processVessel cfg s e).1.fila.length
        = s.veiculosProcessados.length + s.fila.length ∧
    chegadaTotal (processVessel cfg s e).1.eventos = chegadaTotal s.eventos := by
  unfold processVessel Embarcacao.iniciarManutencao Embarcacao.finalizarManutencao
    Embarcacao.embarcar Embarcacao.desembarcar
  dsimp only
  split_ifs <;>
    simp_all [chegadaTotal_append, chegadaTotal, Evento.quantidadeChegada]
  omega

theorem processVessel_capacidade (cfg : Config) (s : SimState) (e : Embarcacao) :
    (processVessel cfg s e).2.capacidade = e.capacidade := by
  unfold processVessel Embarcacao.iniciarManutencao Embarcacao.finalizarManutencao
    Embarcacao.embarcar Embarcacao.desembarcar
  dsimp only
  split_ifs <;> rfl


/-- The per-vehicle update applied at boarding inside `Embarcacao.embarcar`
(lines 156-161): boarding stamp and unclamped wait. -/
def marcaEmbarque (horarioAtual : ℚ) (v : Veiculo) : Veiculo :=
  { v with horarioEmbarque := some horarioAtual,
           tempoEspera := horarioAtual - v.horarioChegada }

/-- The per-vehicle update applied inside `Embarcacao.desembarcar`
(lines 172-174). -/
def marcaDesembarque (horarioAtual : ℚ) (v : Veiculo) : Veiculo :=
  { v with horarioDesembarque := some horarioAtual }

/-- The batch boarded by a dispatch at state `s` onto an empty vessel of
capacity `cap`: the queue prefix with boarding stamps. -/
def loteEmbarcado (s : SimState) (cap : ℕ) : List Veiculo :=
  (s.fila.take cap).map (marcaEmbarque s.horarioAtual)

/-- Explicit case analysis of `processVessel`: maintenance start (with or
without an immediate finish), maintenance finish or wait, stochastic
failure, the board/cross/disembark batch, and the idle case. -/
theorem processVessel_cases (cfg : Config) (s : SimState) (e : Embarcacao) :
    (e.necessitaManutencao s.horarioAtual = true ∧
      s.horarioAtual + cfg.manutencaoHoras * 60 ≤ s.horarioAtual ∧
      processVessel cfg s e =
        ({ s with eventos := (s.eventos ++ [Evento.manutencaoInicio e.id s.horarioAtual]) ++
            [Evento.manutencaoFim e.id s.horarioAtual] },
         (e.iniciarManutencao s.horarioAtual).finalizarManutencao s.horarioAtual)) ∨
    (e.necessitaManutencao s.horarioAtual = true ∧
      ¬ s.horarioAtual + cfg.manutencaoHoras * 60 ≤ s.horarioAtual ∧
      processVessel cfg s e =
        ({ s with eventos := s.eventos ++ [Evento.manutencaoInicio e.id s.horarioAtual] },
         e.iniciarManutencao s.horarioAtual)) ∨
    (e.necessitaManutencao s.horarioAtual = false ∧ e.emManutencao = true ∧
      e.ultimaManutencao + cfg.manutencaoHoras * 60 ≤ s.horarioAtual ∧
      processVessel cfg s e =
        ({ s with eventos := s.eventos ++ [Evento.manutencaoFim e.id s.horarioAtual] },
         e.finalizarManutencao s.horarioAtual)) ∨
    (e.necessitaManutencao s.horarioAtual = false ∧ e.emManutencao = true ∧
      ¬ e.ultimaManutencao + cfg.manutencaoHoras * 60 ≤ s.horarioAtual ∧
      processVessel cfg s e = (s, e)) ∨
    (e.necessitaManutencao s.horarioAtual = false ∧ e.emManutencao = false ∧
      s.rng s.rngIdx < cfg.taxaFalhas / 1000 ∧
      processVessel cfg s e =
        ({ s with rngIdx := s.rngIdx + 1,
                  eventos := s.eventos ++ [Evento.falha e.id s.horarioAtual] },
         { e with disponivel := false })) ∨
    (e.necessitaManutencao s.horarioAtual = false ∧ e.emManutencao = false ∧
      ¬ s.rng s.rngIdx < cfg.taxaFalhas / 1000 ∧
      e.disponivel = true ∧ 0 < s.fila.length ∧ e.veiculosAbordo = [] ∧
      processVessel cfg s e =
        ({ s with rngIdx := s.rngIdx + 1,
                  fila := s.fila.drop (loteEmbarcado s (e.capacidade - e.veiculosAbordo.length)).length,
                  veiculosProcessados := s.veiculosProcessados ++ ((e.veiculosAbordo ++ loteEmbarcado s (e.capacidade - e.veiculosAbordo.length)).map (marcaDesembarque (s.horarioAtual + cfg.tempoTravessiaMinutos))),
                  eventos := (s.eventos ++ [Evento.embarque e.id s.horarioAtual (loteEmbarcado s (e.capacidade - e.veiculosAbordo.length)).length (s.fila.length - (loteEmbarcado s (e.capacidade - e.veiculosAbordo.length)).length)]) ++ [Evento.desembarque e.id (s.horarioAtual + cfg.tempoTravessiaMinutos) ((e.veiculosAbordo ++ loteEmbarcado s (e.capacidade - e.veiculosAbordo.length)).map (marcaDesembarque (s.horarioAtual + cfg.tempoTravessiaMinutos))).length] },
         { e with veiculosAbordo := [],
                  viagensRealizadas := e.viagensRealizadas + 1,
                  tempoTotalOcupado := e.tempoTotalOcupado + cfg.tempoTravessiaMinutos })) ∨
    (e.necessitaManutencao s.horarioAtual = false ∧ e.emManutencao = false ∧
      ¬ s.rng s.rngIdx < cfg.taxaFalhas / 1000 ∧
      ¬ (e.disponivel = true ∧ 0 < s.fila.length ∧ e.veiculosAbordo.length = 0) ∧
      processVessel cfg s e = ({ s with rngIdx := s.rngIdx + 1 }, e)) := by
  by_cases h1 : e.necessitaManutencao s.horarioAtual = true
  · by_cases h2 : (e.iniciarManutencao s.horarioAtual).ultimaManutencao +
        cfg.manutencaoHoras * 60 ≤ s.horarioAtual
    · refine Or.inl ⟨h1, h2, ?_⟩
      unfold processVessel
      rw [if_pos h1]
      dsimp only
      rw [if_pos (show (e.iniciarManutencao s.horarioAtual).emManutencao = true from rfl),
        if_pos h2]
      rfl
    · refine Or.inr (Or.inl ⟨h1, h2, ?_⟩)
      unfold processVessel
      rw [if_pos h1]
      dsimp only
      rw [if_pos (show (e.iniciarManutencao s.horarioAtual).emManutencao = true from rfl),
        if_neg h2]
  · have h1' : e.necessitaManutencao s.horarioAtual = false := by
      simpa using h1
    by_cases h2 : e.emManutencao = true
    · by_cases h3 : e.ultimaManutencao + cfg.manutencaoHoras * 60 ≤ s.horarioAtual
      · refine Or.inr (Or.inr (Or.inl ⟨h1', h2, h3, ?_⟩))
        unfold processVessel
        rw [if_neg h1]
        dsimp only
        rw [if_pos h2, if_pos h3]
      · refine Or.inr (Or.inr (Or.inr (Or.inl ⟨h1', h2, h3, ?_⟩)))
        unfold processVessel
        rw [if_neg h1]
        dsimp only
        rw [if_pos h2, if_neg h3]
    · have h2' : e.emManutencao = false := by
        simpa using h2
      by_cases h3 : s.rng s.rngIdx < cfg.taxaFalhas / 1000
      · refine Or.inr (Or.inr (Or.inr (Or.inr (Or.inl ⟨h1', h2', h3, ?_⟩))))
        unfold processVessel
        rw [if_neg h1]
        dsimp only
        rw [if_neg h2, if_pos h3]
      · by_cases h4 : e.disponivel = true ∧ 0 < s.fila.length ∧ e.veiculosAbordo.length = 0
        · refine Or.inr (Or.inr (Or.inr (Or.inr (Or.inr (Or.inl
            ⟨h1', h2', h3, h4.1, h4.2.1, List.length_eq_zero.mp h4.2.2, ?_⟩)))))
          unfold processVessel
          rw [if_neg h1]
          dsimp only
          rw [if_neg h2, if_neg h3, if_pos h4]
          rfl
        · refine Or.inr (Or.inr (Or.inr (Or.inr (Or.inr (Or.inr ⟨h1', h2', h3, h4, ?_⟩)))))
          unfold processVessel
          rw [if_neg h1]
          dsimp only
          rw [if_neg h2, if_neg h3, if_neg h4]

theorem processVessel_eventosCapacidade (cfg : Config) (s : SimState) (e : Embarcacao)
    (cap : ℕ) (hcap : e.capacidade = cap)
    (hev : ∀ ev ∈ s.eventos, ev.cabeNaCapacidade cap) :
    ∀ ev ∈ (processVessel cfg s e).1.eventos, ev.cabeNaCapacidade cap := by
  rcases processVessel_cases cfg s e with
    ⟨h1, hx, heq⟩ | ⟨h1, hx, heq⟩ | ⟨h1, h2, hx, heq⟩ | ⟨h1, h2, hx, heq⟩ |
    ⟨h1, h2, h3, heq⟩ | ⟨h1, h2, h3, h4, h5, h6, heq⟩ | ⟨h1, h2, h3, h4, heq⟩ <;> rw [heq] <;> intro ev hv
  · rcases List.mem_append.mp hv with hv | hv
    · rcases List.mem_append.mp hv with hv | hv
      · exact hev ev hv
      · rw [List.mem_singleton.mp hv]; trivial
    · rw [List.mem_singleton.mp hv]; trivial
  · rcases List.mem_append.mp hv with hv | hv
    · exact hev ev hv
    · rw [List.mem_singleton.mp hv]; trivial
  · rcases List.mem_append.mp hv with hv | hv
    · exact hev ev hv
    · rw [List.mem_singleton.mp hv]; trivial
  · exact hev ev hv
  · rcases List.mem_append.mp hv with hv | hv
    · exact hev ev hv
    · rw [List.mem_singleton.mp hv]; trivial
  · rcases List.mem_append.mp hv with hv | hv
    · rcases List.mem_append.mp hv with hv | hv
      · exact hev ev hv
      · rw [List.mem_singleton.mp hv]; trivial
    · rw [List.mem_singleton.mp hv]
      show ((e.veiculosAbordo ++ loteEmbarcado s (e.capacidade - e.veiculosAbordo.length)).map
        (marcaDesembarque (s.horarioAtual + cfg.tempoTravessiaMinutos))).length ≤ cap
      simp only [h6, List.nil_append, loteEmbarcado, List.length_map, List.length_take,
        List.length_nil, Nat.sub_zero, hcap]
      omega
  · exact hev ev hv

theorem processVessel_espera (cfg : Config) (s : SimState) (e : Embarcacao)
    (hproc : ∀ v ∈ s.veiculosProcessados, EsperaExata v) :
    ∀ v ∈ (processVessel cfg s e).1.veiculosProcessados, EsperaExata v := by
  rcases processVessel_cases cfg s e with
    ⟨h1, hx, heq⟩ | ⟨h1, hx, heq⟩ | ⟨h1, h2, hx, heq⟩ | ⟨h1, h2, hx, heq⟩ |
    ⟨h1, h2, h3, heq⟩ | ⟨h1, h2, h3, h4, h5, h6, heq⟩ | ⟨h1, h2, h3, h4, heq⟩ <;> rw [heq] <;> intro v hv <;>
    first
      | exact hproc v hv
      | skip
  rcases List.mem_append.mp hv with hv | hv
  · exact hproc v hv
  · rw [h6, List.nil_append, loteEmbarcado, List.map_map] at hv
    obtain ⟨u, hu, rfl⟩ := List.mem_map.mp hv
    exact ⟨s.horarioAtual, rfl, rfl⟩

theorem processVessel_filaVazia (cfg : Config) (s : SimState) (e : Embarcacao)
    (hfila : s.fila = []) :
    (processVessel cfg s e).1.fila = [] ∧
    (processVessel cfg s e).1.veiculosProcessados = s.veiculosProcessados ∧
    (processVessel cfg s e).2.tempoTotalOcupado = e.tempoTotalOcupado := by
  rcases processVessel_cases cfg s e with
    ⟨h1, hx, heq⟩ | ⟨h1, hx, heq⟩ | ⟨h1, h2, hx, heq⟩ | ⟨h1, h2, hx, heq⟩ |
    ⟨h1, h2, h3, heq⟩ | ⟨h1, h2, h3, h4, h5, h6, heq⟩ | ⟨h1, h2, h3, h4, heq⟩ <;> rw [heq]
  · exact ⟨hfila, rfl, rfl⟩
  · exact ⟨hfila, rfl, rfl⟩
  · exact ⟨hfila, rfl, rfl⟩
  · exact ⟨hfila, rfl, rfl⟩
  · exact ⟨hfila, rfl, rfl⟩
  · rw [hfila] at h5
    simp at h5
  · exact ⟨hfila, rfl, rfl⟩

theorem processVessel_semManutencao (cfg : Config) (s : SimState) (e : Embarcacao)
    (hhor : s.horarioAtual < 43200) (hprox : e.proximaManutencao = 43200)
    (hman : e.emManutencao = false)
    (hev : ∀ ev ∈ s.eventos, ev.semManutencaoInicio) :
    (processVessel cfg s e).2.proximaManutencao = 43200 ∧
    (processVessel cfg s e).2.emManutencao = false ∧
    ∀ ev ∈ (processVessel cfg s e).1.eventos, ev.semManutencaoInicio := by
  have hnec : e.necessitaManutencao s.horarioAtual = false := by
    simp [Embarcacao.necessitaManutencao, hprox, not_le.mpr hhor]
  rcases processVessel_cases cfg s e with
    ⟨h1, hx, heq⟩ | ⟨h1, hx, heq⟩ | ⟨h1, h2, hx, heq⟩ | ⟨h1, h2, hx, heq⟩ |
    ⟨h1, h2, h3, heq⟩ | ⟨h1, h2, h3, h4, h5, h6, heq⟩ | ⟨h1, h2, h3, h4, heq⟩
  · rw [hnec] at h1; exact absurd h1 (by simp)
  · rw [hnec] at h1; exact absurd h1 (by simp)
  · rw [hman] at h2; exact absurd h2 (by simp)
  · rw [hman] at h2; exact absurd h2 (by simp)
  · rw [heq]
    refine ⟨hprox, hman, ?_⟩
    intro ev hv
    rcases List.mem_append.mp hv with hv | hv
    · exact hev ev hv
    · rw [List.mem_singleton.mp hv]; trivial
  · rw [heq]
    refine ⟨hprox, hman, ?_⟩
    intro ev hv
    rcases List.mem_append.mp hv with hv | hv
    · rcases List.mem_append.mp hv with hv | hv
      · exact hev ev hv
      · rw [List.mem_singleton.mp hv]; trivial
    · rw [List.mem_singleton.mp hv]; trivial
  · rw [heq]
    exact ⟨hprox, hman, hev⟩

theorem processVessel_ocupadoNaoNeg (cfg : Config) (s : SimState) (e : Embarcacao)
    (htrav : 0 ≤ cfg.tempoTravessiaMinutos) (hocup : 0 ≤ e.tempoTotalOcupado) :
    0 ≤ (processVessel cfg s e).2.tempoTotalOcupado := by
  rcases processVessel_cases cfg s e with
    ⟨h1, hx, heq⟩ | ⟨h1, hx, heq⟩ | ⟨h1, h2, hx, heq⟩ | ⟨h1, h2, hx, heq⟩ |
    ⟨h1, h2, h3, heq⟩ | ⟨h1, h2, h3, h4, h5, h6, heq⟩ | ⟨h1, h2, h3, h4, heq⟩ <;> rw [heq]
  · exact hocup
  · exact hocup
  · exact hocup
  · exact hocup
  · exact hocup
  · show 0 ≤ e.tempoTotalOcupado + cfg.tempoTravessiaMinutos
    linarith
  · exact hocup

theorem processVessel_abordoVazio (cfg : Config) (s : SimState) (e : Embarcacao)
    (habordo : e.veiculosAbordo = []) :
    (processVessel cfg s e).2.veiculosAbordo = [] := by
  rcases processVessel_cases cfg s e with
    ⟨h1, hx, heq⟩ | ⟨h1, hx, heq⟩ | ⟨h1, h2, hx, heq⟩ | ⟨h1, h2, hx, heq⟩ |
    ⟨h1, h2, h3, heq⟩ | ⟨h1, h2, h3, h4, h5, h6, heq⟩ | ⟨h1, h2, h3, h4, heq⟩ <;> rw [heq] <;>
    simp [Embarcacao.iniciarManutencao, Embarcacao.finalizarManutencao, habordo]

theorem forEachEmb_conserva (cfg : Config) (l : List Embarcacao) :
    ∀ s : SimState, (∀ e ∈ l, e.veiculosAbordo = []) →
      s.veiculosProcessados.length + s.fila.length = chegadaTotal s.eventos →
      (∀ e ∈ (forEachEmb cfg s l).2, e.veiculosAbordo = []) ∧
      (forEachEmb cfg s l).1.veiculosProcessados.length + (forEachEmb cfg s l).1.fila.length
        = chegadaTotal (forEachEmb cfg s l).1.eventos := by
  induction l with
  | nil =>
    intro s _ hc
    exact ⟨by simp [forEachEmb], hc⟩
  | cons e resto ih =>
    intro s hab hc
    obtain ⟨hv, hsum, hev⟩ := processVessel_conserva cfg s e (hab e (List.mem_cons_self e resto))
    have hc' : (processVessel cfg s e).1.veiculosProcessados.length +
        (processVessel cfg s e).1.fila.length = chegadaTotal (processVessel cfg s e).1.eventos := by
      rw [hsum, hev]; exact hc
    obtain ⟨ih1, ih2⟩ := ih (processVessel cfg s e).1
      (fun e' he' => hab e' (List.mem_cons_of_mem e he')) hc'
    refine ⟨?_, ih2⟩
    intro e' he'
    rcases List.mem_cons.mp he' with rfl | he'
    · exact hv
    · exact ih1 e' he'

theorem forEachEmb_eventosCapacidade (cfg : Config) (cap : ℕ) (l : List Embarcacao) :
    ∀ s : SimState, (∀ e ∈ l, e.capacidade = cap) →
      (∀ ev ∈ s.eventos, ev.cabeNaCapacidade cap) →
      (∀ e ∈ (forEachEmb cfg s l).2, e.capacidade = cap) ∧
      ∀ ev ∈ (forEachEmb cfg s l).1.eventos, ev.cabeNaCapacidade cap := by
  induction l with
  | nil =>
    intro s _ hev
    exact ⟨by simp [forEachEmb], hev⟩
  | cons e resto ih =>
    intro s hcap hev
    have hcap0 := hcap e (List.mem_cons_self e resto)
    have hev' := processVessel_eventosCapacidade cfg s e cap hcap0 hev
    obtain ⟨ih1, ih2⟩ := ih (processVessel cfg s e).1
      (fun e' he' => hcap e' (List.mem_cons_of_mem e he')) hev'
    refine ⟨?_, ih2⟩
    intro e' he'
    rcases List.mem_cons.mp he' with rfl | he'
    · rw [processVessel_capacidade]; exact hcap0
    · exact ih1 e' he'

theorem forEachEmb_espera (cfg : Config) (l : List Embarcacao) :
    ∀ s : SimState, (∀ v ∈ s.veiculosProcessados, EsperaExata v) →
      ∀ v ∈ (forEachEmb cfg s l).1.veiculosProcessados, EsperaExata v := by
  induction l with
  | nil =>
    intro s hproc
    exact hproc
  | cons e resto ih =>
    intro s hproc
    exact ih (processVessel cfg s e).1 (processVessel_espera cfg s e hproc)

theorem forEachEmb_filaVazia (cfg : Config) (l : List Embarcacao) :
    ∀ s : SimState, s.fila = [] → (∀ e ∈ l, e.tempoTotalOcupado = 0) →
      (forEachEmb cfg s l).1.fila = [] ∧
      (forEachEmb cfg s l).1.veiculosProcessados = s.veiculosProcessados ∧
      ∀ e ∈ (forEachEmb cfg s l).2, e.tempoTotalOcupado = 0 := by
  induction l with
  | nil =>
    intro s hfila _
    exact ⟨hfila, rfl, by simp [forEachEmb]⟩
  | cons e resto ih =>
    intro s hfila hocup
    obtain ⟨hf, hp, ho⟩ := processVessel_filaVazia cfg s e hfila
    obtain ⟨ih1, ih2, ih3⟩ := ih (processVessel cfg s e).1 hf
      (fun e' he' => hocup e' (List.mem_cons_of_mem e he'))
    refine ⟨ih1, ih2.trans hp, ?_⟩
    intro e' he'
    rcases List.mem_cons.mp he' with rfl | he'
    · rw [ho]; exact hocup e (List.mem_cons_self e resto)
    · exact ih3 e' he'

theorem forEachEmb_semManutencao (cfg : Config) (l : List Embarcacao) :
    ∀ s : SimState, s.horarioAtual < 43200 →
      (∀ e ∈ l, e.proximaManutencao = 43200 ∧ e.emManutencao = false) →
      (∀ ev ∈ s.eventos, ev.semManutencaoInicio) →
      (∀ e ∈ (forEachEmb cfg s l).2,
        e.proximaManutencao = 43200 ∧ e.emManutencao = false) ∧
      ∀ ev ∈ (forEachEmb cfg s l).1.eventos, ev.semManutencaoInicio := by
  induction l with
  | nil =>
    intro s _ _ hev
    exact ⟨by simp [forEachEmb], hev⟩
  | cons e resto ih =>
    intro s hhor hman hev
    obtain ⟨h0, h1⟩ := hman e (List.mem_cons_self e resto)
    obtain ⟨hp, hm, hev'⟩ := processVessel_semManutencao cfg s e hhor h0 h1 hev
    have hhor' : (processVessel cfg s e).1.horarioAtual < 43200 := by
      rw [processVessel_horarioAtual]; exact hhor
    obtain ⟨ih1, ih2⟩ := ih (processVessel cfg s e).1 hhor'
      (fun e' he' => hman e' (List.mem_cons_of_mem e he')) hev'
    refine ⟨?_, ih2⟩
    intro e' he'
    rcases List.mem_cons.mp he' with rfl | he'
    · exact ⟨hp, hm⟩
    · exact ih1 e' he'

theorem forEachEmb_ocupadoNaoNeg (cfg : Config) (l : List Embarcacao)
    (htrav : 0 ≤ cfg.tempoTravessiaMinutos) :
    ∀ s : SimState, (∀ e ∈ l, 0 ≤ e.tempoTotalOcupado) →
      ∀ e ∈ (forEachEmb cfg s l).2, 0 ≤ e.tempoTotalOcupado := by
  induction l with
  | nil =>
    intro s _
    simp [forEachEmb]
  | cons e resto ih =>
    intro s hocup e' he'
    rcases List.mem_cons.mp he' with rfl | he'
    · exact processVessel_ocupadoNaoNeg cfg s e htrav (hocup e (List.mem_cons_self e resto))
    · exact ih (processVessel cfg s e).1
        (fun x hx => hocup x (List.mem_cons_of_mem e hx)) e' he'

theorem forEachEmb_abordoVazio (cfg : Config) (l : List Embarcacao) :
    ∀ s : SimState, (∀ e ∈ l, e.veiculosAbordo = []) →
      ∀ e ∈ (forEachEmb cfg s l).2, e.veiculosAbordo = [] := by
  induction l with
  | nil =>
    intro s _
    simp [forEachEmb]
  | cons e resto ih =>
    intro s hab e' he'
    rcases List.mem_cons.mp he' with rfl | he'
    · exact processVessel_abordoVazio cfg s e (hab e (List.mem_cons_self e resto))
    · exact ih (processVessel cfg s e).1
        (fun x hx => hab x (List.mem_cons_of_mem e hx)) e' he'

/-- State after the arrival phase of a tick when at least one vehicle
arrived: queue extended, stream advanced, `chegada` event logged. -/
def estadoAposChegadas (s : SimState) (novos : List Veiculo) (idx2 : ℕ) : SimState :=
  { s with fila := s.fila ++ novos, rngIdx := idx2,
           eventos := s.eventos ++
             [Evento.chegada s.horarioAtual novos.length (s.fila ++ novos).length] }

/-- State after the arrival phase of a tick when no vehicle arrived. -/
def estadoSemChegadas (s : SimState) (novos : List Veiculo) (idx2 : ℕ) : SimState :=
  { s with fila := s.fila ++ novos, rngIdx := idx2 }

/-- Vessel-processing and clock-advance phase of a tick, applied to the
state left by the arrival phase. -/
def tickFim (cfg : Config) (s2 : SimState) : SimState :=
  { (forEachEmb cfg s2 s2.embarcacoes).1 with
    embarcacoes := (forEachEmb cfg s2 s2.embarcacoes).2,
    horarioAtual := (forEachEmb cfg s2 s2.embarcacoes).1.horarioAtual +
      cfg.frequenciaSaidaMinutos }

theorem tick_eq_of_pos (s : SimState) (novos : List Veiculo) (idx2 : ℕ)
    (hger : gerarChegadaVeiculos s.config.veiculosDiarios s.config.horasOperacao
      s.config.picos s.config.percentualCarros s.horarioAtual s.rng s.rngIdx = (novos, idx2))
    (hpos : 0 < novos.length) :
    tick s = tickFim s.config (estadoAposChegadas s novos idx2) := by
  unfold tick tickFim estadoAposChegadas
  dsimp only
  rw [hger]
  dsimp only
  rw [if_pos hpos]

theorem tick_eq_of_zero (s : SimState) (novos : List Veiculo) (idx2 : ℕ)
    (hger : gerarChegadaVeiculos s.config.veiculosDiarios s.config.horasOperacao
      s.config.picos s.config.percentualCarros s.horarioAtual s.rng s.rngIdx = (novos, idx2))
    (hzero : ¬ 0 < novos.length) :
    tick s = tickFim s.config (estadoSemChegadas s novos idx2) := by
  unfold tick tickFim estadoSemChegadas
  dsimp only
  rw [hger]
  dsimp only
  rw [if_neg hzero]

@[simp] theorem estadoAposChegadas_config (s : SimState) (novos : List Veiculo) (idx2 : ℕ) :
    (estadoAposChegadas s novos idx2).config = s.config := rfl

@[simp] theorem estadoAposChegadas_embarcacoes (s : SimState) (novos : List Veiculo)
    (idx2 : ℕ) : (estadoAposChegadas s novos idx2).embarcacoes = s.embarcacoes := rfl

@[simp] theorem estadoAposChegadas_fila (s : SimState) (novos : List Veiculo) (idx2 : ℕ) :
    (estadoAposChegadas s novos idx2).fila = s.fila ++ novos := rfl

@[simp] theorem estadoAposChegadas_veiculosProcessados (s : SimState) (novos : List Veiculo)
    (idx2 : ℕ) :
    (estadoAposChegadas s novos idx2).veiculosProcessados = s.veiculosProcessados := rfl

@[simp] theorem estadoAposChegadas_eventos (s : SimState) (novos : List Veiculo) (idx2 : ℕ) :
    (estadoAposChegadas s novos idx2).eventos =
      s.eventos ++ [Evento.chegada s.horarioAtual novos.length (s.fila ++ novos).length] := rfl

@[simp] theorem estadoAposChegadas_horarioAtual (s : SimState) (novos : List Veiculo)
    (idx2 : ℕ) : (estadoAposChegadas s novos idx2).horarioAtual = s.horarioAtual := rfl

@[simp] theorem estadoSemChegadas_config (s : SimState) (novos : List Veiculo) (idx2 : ℕ) :
    (estadoSemChegadas s novos idx2).config = s.config := rfl

@[simp] theorem estadoSemChegadas_embarcacoes (s : SimState) (novos : List Veiculo)
    (idx2 : ℕ) : (estadoSemChegadas s novos idx2).embarcacoes = s.embarcacoes := rfl

@[simp] theorem estadoSemChegadas_fila (s : SimState) (novos : List Veiculo) (idx2 : ℕ) :
    (estadoSemChegadas s novos idx2).fila = s.fila ++ novos := rfl

@[simp] theorem estadoSemChegadas_veiculosProcessados (s : SimState) (novos : List Veiculo)
    (idx2 : ℕ) :
    (estadoSemChegadas s novos idx2).veiculosProcessados = s.veiculosProcessados := rfl

@[simp] theorem estadoSemChegadas_eventos (s : SimState) (novos : List Veiculo) (idx2 : ℕ) :
    (estadoSemChegadas s novos idx2).eventos = s.eventos := rfl

@[simp] theorem estadoSemChegadas_horarioAtual (s : SimState) (novos : List Veiculo)
    (idx2 : ℕ) : (estadoSemChegadas s novos idx2).horarioAtual = s.horarioAtual := rfl

@[simp] theorem tickFim_embarcacoes (cfg : Config) (s2 : SimState) :
    (tickFim cfg s2).embarcacoes = (forEachEmb cfg s2 s2.embarcacoes).2 := rfl

@[simp] theorem tickFim_fila (cfg : Config) (s2 : SimState) :
    (tickFim cfg s2).fila = (forEachEmb cfg s2 s2.embarcacoes).1.fila := rfl

@[simp] theorem tickFim_veiculosProcessados (cfg : Config) (s2 : SimState) :
    (tickFim cfg s2).veiculosProcessados =
      (forEachEmb cfg s2 s2.embarcacoes).1.veiculosProcessados := rfl

@[simp] theorem tickFim_eventos (cfg : Config) (s2 : SimState) :
    (tickFim cfg s2).eventos = (forEachEmb cfg s2 s2.embarcacoes).1.eventos := rfl

theorem chegadaTotal_chegada (horario : ℚ) (quantidade filaTotal : ℕ) :
    chegadaTotal [Evento.chegada horario quantidade filaTotal] = quantidade := by
  simp [chegadaTotal, Evento.quantidadeChegada]

theorem gerarChegadaVeiculos_zero (horasOperacao : ℚ) (picos : List (ℚ × ℚ))
    (percentualCarros horarioAtual : ℚ) (rng : ℕ → ℚ) (idx : ℕ) :
    gerarChegadaVeiculos 0 horasOperacao picos percentualCarros horarioAtual rng idx
      = ([], idx) := by
  unfold gerarChegadaVeiculos
  dsimp only
  simp [gerarLoop]

theorem tick_conserva (s : SimState)
    (hab : ∀ e ∈ s.embarcacoes, e.veiculosAbordo = [])
    (hc : s.veiculosProcessados.length + s.fila.length = chegadaTotal s.eventos) :
    (∀ e ∈ (tick s).embarcacoes, e.veiculosAbordo = []) ∧
    (tick s).veiculosProcessados.length + (tick s).fila.length
      = chegadaTotal (tick s).eventos := by
  obtain ⟨novos, idx2, hger⟩ :
      ∃ novos idx2, gerarChegadaVeiculos s.config.veiculosDiarios s.config.horasOperacao
        s.config.picos s.config.percentualCarros s.horarioAtual s.rng s.rngIdx
          = (novos, idx2) := ⟨_, _, rfl⟩
  by_cases hpos : 0 < novos.length
  · rw [tick_eq_of_pos s novos idx2 hger hpos]
    have hc2 : (estadoAposChegadas s novos idx2).veiculosProcessados.length +
        (estadoAposChegadas s novos idx2).fila.length =
        chegadaTotal (estadoAposChegadas s novos idx2).eventos := by
      simp only [estadoAposChegadas_veiculosProcessados, estadoAposChegadas_fila,
        estadoAposChegadas_eventos, List.length_append, chegadaTotal_append,
        chegadaTotal_chegada]
      omega
    obtain ⟨h1, h2⟩ := forEachEmb_conserva s.config s.embarcacoes
      (estadoAposChegadas s novos idx2) hab hc2
    exact ⟨by simpa using h1, by simpa using h2⟩
  · rw [tick_eq_of_zero s novos idx2 hger hpos]
    have hc2 : (estadoSemChegadas s novos idx2).veiculosProcessados.length +
        (estadoSemChegadas s novos idx2).fila.length =
        chegadaTotal (estadoSemChegadas s novos idx2).eventos := by
      have hlen : novos.length = 0 := by omega
      simp [hlen]
      omega
    obtain ⟨h1, h2⟩ := forEachEmb_conserva s.config s.embarcacoes
      (estadoSemChegadas s novos idx2) hab hc2
    exact ⟨by simpa using h1, by simpa using h2⟩

theorem tick_espera (s : SimState)
    (hproc : ∀ v ∈ s.veiculosProcessados, EsperaExata v) :
    ∀ v ∈ (tick s).veiculosProcessados, EsperaExata v := by
  obtain ⟨novos, idx2, hger⟩ :
      ∃ novos idx2, gerarChegadaVeiculos s.config.veiculosDiarios s.config.horasOperacao
        s.config.picos s.config.percentualCarros s.horarioAtual s.rng s.rngIdx
          = (novos, idx2) := ⟨_, _, rfl⟩
  by_cases hpos : 0 < novos.length
  · rw [tick_eq_of_pos s novos idx2 hger hpos]
    have h := forEachEmb_espera s.config s.embarcacoes
      (estadoAposChegadas s novos idx2) hproc
    simpa using h
  · rw [tick_eq_of_zero s novos idx2 hger hpos]
    have h := forEachEmb_espera s.config s.embarcacoes
      (estadoSemChegadas s novos idx2) hproc
    simpa using h

theorem tick_eventosCapacidade (s : SimState) (cap : ℕ)
    (hcap : ∀ e ∈ s.embarcacoes, e.capacidade = cap)
    (hev : ∀ ev ∈ s.eventos, ev.cabeNaCapacidade cap) :
    (∀ e ∈ (tick s).embarcacoes, e.capacidade = cap) ∧
    ∀ ev ∈ (tick s).eventos, ev.cabeNaCapacidade cap := by
  obtain ⟨novos, idx2, hger⟩ :
      ∃ novos idx2, gerarChegadaVeiculos s.config.veiculosDiarios s.config.horasOperacao
        s.config.picos s.config.percentualCarros s.horarioAtual s.rng s.rngIdx
          = (novos, idx2) := ⟨_, _, rfl⟩
  by_cases hpos : 0 < novos.length
  · rw [tick_eq_of_pos s novos idx2 hger hpos]
    have hev2 : ∀ ev ∈ (estadoAposChegadas s novos idx2).eventos, ev.cabeNaCapacidade cap := by
      intro ev hv
      rw [estadoAposChegadas_eventos] at hv
      rcases List.mem_append.mp hv with hv | hv
      · exact hev ev hv
      · rw [List.mem_singleton.mp hv]; trivial
    obtain ⟨h1, h2⟩ := forEachEmb_eventosCapacidade s.config cap s.embarcacoes
      (estadoAposChegadas s novos idx2) hcap hev2
    exact ⟨by simpa using h1, by simpa using h2⟩
  · rw [tick_eq_of_zero s novos idx2 hger hpos]
    obtain ⟨h1, h2⟩ := forEachEmb_eventosCapacidade s.config cap s.embarcacoes
      (estadoSemChegadas s novos idx2) hcap hev
    exact ⟨by simpa using h1, by simpa using h2⟩

theorem tick_zeroArrivals (s : SimState) (hvol : s.config.veiculosDiarios = 0)
    (hfila : s.fila = [])
    (hocup : ∀ e ∈ s.embarcacoes, e.tempoTotalOcupado = 0) :
    (tick s).fila = [] ∧ (tick s).veiculosProcessados = s.veiculosProcessados ∧
    ∀ e ∈ (tick s).embarcacoes, e.tempoTotalOcupado = 0 := by
  have hger : gerarChegadaVeiculos s.config.veiculosDiarios s.config.horasOperacao
      s.config.picos s.config.percentualCarros s.horarioAtual s.rng s.rngIdx
        = ([], s.rngIdx) := by
    rw [hvol]
    exact gerarChegadaVeiculos_zero _ _ _ _ _ _
  rw [tick_eq_of_zero s [] s.rngIdx hger (by simp)]
  have hfila2 : (estadoSemChegadas s [] s.rngIdx).fila = [] := by
    simp [hfila]
  obtain ⟨h1, h2, h3⟩ := forEachEmb_filaVazia s.config s.embarcacoes
    (estadoSemChegadas s [] s.rngIdx) hfila2 hocup
  exact ⟨by simpa using h1, by simpa using h2, by simpa using h3⟩

theorem tick_semManutencao (s : SimState) (hhor : s.horarioAtual < 43200)
    (hman : ∀ e ∈ s.embarcacoes, e.proximaManutencao = 43200 ∧ e.emManutencao = false)
    (hev : ∀ ev ∈ s.eventos, ev.semManutencaoInicio) :
    (∀ e ∈ (tick s).embarcacoes,
      e.proximaManutencao = 43200 ∧ e.emManutencao = false) ∧
    ∀ ev ∈ (tick s).eventos, ev.semManutencaoInicio := by
  obtain ⟨novos, idx2, hger⟩ :
      ∃ novos idx2, gerarChegadaVeiculos s.config.veiculosDiarios s.config.horasOperacao
        s.config.picos s.config.percentualCarros s.horarioAtual s.rng s.rngIdx
          = (novos, idx2) := ⟨_, _, rfl⟩
  by_cases hpos : 0 < novos.length
  · rw [tick_eq_of_pos s novos idx2 hger hpos]
    have hev2 : ∀ ev ∈ (estadoAposChegadas s novos idx2).eventos,
        ev.semManutencaoInicio := by
      intro ev hv
      rw [estadoAposChegadas_eventos] at hv
      rcases List.mem_append.mp hv with hv | hv
      · exact hev ev hv
      · rw [List.mem_singleton.mp hv]; trivial
    obtain ⟨h1, h2⟩ := forEachEmb_semManutencao s.config s.embarcacoes
      (estadoAposChegadas s novos idx2) (by simpa using hhor) hman hev2
    exact ⟨by simpa using h1, by simpa using h2⟩
  · rw [tick_eq_of_zero s novos idx2 hger hpos]
    obtain ⟨h1, h2⟩ := forEachEmb_semManutencao s.config s.embarcacoes
      (estadoSemChegadas s novos idx2) (by simpa using hhor) hman hev
    exact ⟨by simpa using h1, by simpa using h2⟩

theorem tick_ocupadoNaoNeg (s : SimState) (htrav : 0 ≤ s.config.tempoTravessiaMinutos)
    (hocup : ∀ e ∈ s.embarcacoes, 0 ≤ e.tempoTotalOcupado) :
    ∀ e ∈ (tick s).embarcacoes, 0 ≤ e.tempoTotalOcupado := by
  obtain ⟨novos, idx2, hger⟩ :
      ∃ novos idx2, gerarChegadaVeiculos s.config.veiculosDiarios s.config.horasOperacao
        s.config.picos s.config.percentualCarros s.horarioAtual s.rng s.rngIdx
          = (novos, idx2) := ⟨_, _, rfl⟩
  by_cases hpos : 0 < novos.length
  · rw [tick_eq_of_pos s novos idx2 hger hpos]
    have h := forEachEmb_ocupadoNaoNeg s.config s.embarcacoes htrav
      (estadoAposChegadas s novos idx2) hocup
    simpa using h
  · rw [tick_eq_of_zero s novos idx2 hger hpos]
    have h := forEachEmb_ocupadoNaoNeg s.config s.embarcacoes htrav
      (estadoSemChegadas s novos idx2) hocup
    simpa using h

theorem loopN_conserva (n : ℕ) : ∀ s : SimState,
    (∀ e ∈ s.embarcacoes, e.veiculosAbordo = []) →
    s.veiculosProcessados.length + s.fila.length = chegadaTotal s.eventos →
    (∀ e ∈ (loopN n s).embarcacoes, e.veiculosAbordo = []) ∧
    (loopN n s).veiculosProcessados.length + (loopN n s).fila.length
      = chegadaTotal (loopN n s).eventos := by
  induction n with
  | zero =>
    intro s hab hc
    exact ⟨hab, hc⟩
  | succ n ih =>
    intro s hab hc
    rw [loopN]
    split_ifs
    · obtain ⟨h1, h2⟩ := tick_conserva s hab hc
      exact ih (tick s) h1 h2
    · exact ⟨hab, hc⟩

theorem loopN_espera (n : ℕ) : ∀ s : SimState,
    (∀ v ∈ s.veiculosProcessados, EsperaExata v) →
    ∀ v ∈ (loopN n s).veiculosProcessados, EsperaExata v := by
  induction n with
  | zero =>
    intro s hproc
    exact hproc
  | succ n ih =>
    intro s hproc
    rw [loopN]
    split_ifs
    · exact ih (tick s) (tick_espera s hproc)
    · exact hproc

theorem loopN_eventosCapacidade (n : ℕ) (cap : ℕ) : ∀ s : SimState,
    (∀ e ∈ s.embarcacoes, e.capacidade = cap) →
    (∀ ev ∈ s.eventos, ev.cabeNaCapacidade cap) →
    (∀ e ∈ (loopN n s).embarcacoes, e.capacidade = cap) ∧
    ∀ ev ∈ (loopN n s).eventos, ev.cabeNaCapacidade cap := by
  induction n with
  | zero =>
    intro s hcap hev
    exact ⟨hcap, hev⟩
  | succ n ih =>
    intro s hcap hev
    rw [loopN]
    split_ifs
    · obtain ⟨h1, h2⟩ := tick_eventosCapacidade s cap hcap hev
      exact ih (tick s) h1 h2
    · exact ⟨hcap, hev⟩

theorem loopN_zeroArrivals (n : ℕ) : ∀ s : SimState,
    s.config.veiculosDiarios = 0 → s.fila = [] → s.veiculosProcessados = [] →
    (∀ e ∈ s.embarcacoes, e.tempoTotalOcupado = 0) →
    (loopN n s).fila = [] ∧ (loopN n s).veiculosProcessados = [] ∧
    ∀ e ∈ (loopN n s).embarcacoes, e.tempoTotalOcupado = 0 := by
  induction n with
  | zero =>
    intro s _ hfila hproc hocup
    exact ⟨hfila, hproc, hocup⟩
  | succ n ih =>
    intro s hvol hfila hproc hocup
    rw [loopN]
    split_ifs
    · obtain ⟨h1, h2, h3⟩ := tick_zeroArrivals s hvol hfila hocup
      exact ih (tick s) (by rw [tick_config]; exact hvol) h1 (by rw [h2]; exact hproc) h3
    · exact ⟨hfila, hproc, hocup⟩

theorem loopN_semManutencao (n : ℕ) : ∀ s : SimState,
    s.config.horarioFim * 60 ≤ 43200 →
    (∀ e ∈ s.embarcacoes, e.proximaManutencao = 43200 ∧ e.emManutencao = false) →
    (∀ ev ∈ s.eventos, ev.semManutencaoInicio) →
    (∀ e ∈ (loopN n s).embarcacoes,
      e.proximaManutencao = 43200 ∧ e.emManutencao = false) ∧
    ∀ ev ∈ (loopN n s).eventos, ev.semManutencaoInicio := by
  induction n with
  | zero =>
    intro s _ hman hev
    exact ⟨hman, hev⟩
  | succ n ih =>
    intro s hfim hman hev
    rw [loopN]
    split_ifs with hcond
    · have hhor : s.horarioAtual < 43200 := lt_of_lt_of_le hcond hfim
      obtain ⟨h1, h2⟩ := tick_semManutencao s hhor hman hev
      exact ih (tick s) (by rw [tick_config]; exact hfim) h1 h2
    · exact ⟨hman, hev⟩

theorem loopN_ocupadoNaoNeg (n : ℕ) : ∀ s : SimState,
    0 ≤ s.config.tempoTravessiaMinutos →
    (∀ e ∈ s.embarcacoes, 0 ≤ e.tempoTotalOcupado) →
    ∀ e ∈ (loopN n s).embarcacoes, 0 ≤ e.tempoTotalOcupado := by
  induction n with
  | zero =>
    intro s _ hocup
    exact hocup
  | succ n ih =>
    intro s htrav hocup
    rw [loopN]
    split_ifs
    · exact ih (tick s) (by rw [tick_config]; exact htrav) (tick_ocupadoNaoNeg s htrav hocup)
    · exact hocup

/-- Override of the `percentualPico` field alone, as built by
`simularComReservas`. -/
def comPico (x : ℚ) (cfg : Config) : Config := { cfg with percentualPico := x }

/-- The same override applied to the configuration stored in a state. -/
def comPicoState (x : ℚ) (s : SimState) : SimState :=
  { s with config := comPico x s.config }

theorem processVessel_comPico (x : ℚ) (cfg : Config) (s : SimState) (e : Embarcacao) :
    processVessel (comPico x cfg) (comPicoState x s) e =
      (comPicoState x (processVessel cfg s e).1, (processVessel cfg s e).2) := by
  unfold comPicoState comPico processVessel
  dsimp only
  split_ifs <;> rfl

theorem forEachEmb_comPico (x : ℚ) (cfg : Config) (l : List Embarcacao) :
    ∀ s : SimState, forEachEmb (comPico x cfg) (comPicoState x s) l =
      (comPicoState x (forEachEmb cfg s l).1, (forEachEmb cfg s l).2) := by
  induction l with
  | nil => intro s; rfl
  | cons e resto ih =>
    intro s
    simp only [forEachEmb, processVessel_comPico, ih]

theorem tickFim_comPico (x : ℚ) (cfg : Config) (s2 : SimState) :
    tickFim (comPico x cfg) (comPicoState x s2) = comPicoState x (tickFim cfg s2) := by
  unfold tickFim
  rw [show (comPicoState x s2).embarcacoes = s2.embarcacoes from rfl, forEachEmb_comPico]
  rfl

theorem tick_comPico (x : ℚ) (s : SimState) :
    tick (comPicoState x s) = comPicoState x (tick s) := by
  obtain ⟨novos, idx2, hger⟩ :
      ∃ novos idx2, gerarChegadaVeiculos s.config.veiculosDiarios s.config.horasOperacao
        s.config.picos s.config.percentualCarros s.horarioAtual s.rng s.rngIdx
          = (novos, idx2) := ⟨_, _, rfl⟩
  have hger' : gerarChegadaVeiculos (comPicoState x s).config.veiculosDiarios
      (comPicoState x s).config.horasOperacao (comPicoState x s).config.picos
      (comPicoState x s).config.percentualCarros (comPicoState x s).horarioAtual
      (comPicoState x s).rng (comPicoState x s).rngIdx = (novos, idx2) := hger
  by_cases hpos : 0 < novos.length
  · rw [tick_eq_of_pos (comPicoState x s) novos idx2 hger' hpos,
      tick_eq_of_pos s novos idx2 hger hpos,
      show estadoAposChegadas (comPicoState x s) novos idx2
        = comPicoState x (estadoAposChegadas s novos idx2) from rfl,
      show (comPicoState x s).config = comPico x s.config from rfl,
      tickFim_comPico]
  · rw [tick_eq_of_zero (comPicoState x s) novos idx2 hger' hpos,
      tick_eq_of_zero s novos idx2 hger hpos,
      show estadoSemChegadas (comPicoState x s) novos idx2
        = comPicoState x (estadoSemChegadas s novos idx2) from rfl,
      show (comPicoState x s).config = comPico x s.config from rfl,
      tickFim_comPico]

theorem loopN_comPico (x : ℚ) (n : ℕ) :
    ∀ s : SimState, loopN n (comPicoState x s) = comPicoState x (loopN n s) := by
  induction n with
  | zero => intro s; rfl
  | succ n ih =>
    intro s
    simp only [loopN]
    by_cases h : s.horarioAtual < s.config.horarioFim * 60
    · rw [if_pos h, if_pos (show (comPicoState x s).horarioAtual <
        (comPicoState x s).config.horarioFim * 60 from h), tick_comPico, ih]
    · rw [if_neg h, if_neg (show ¬ ((comPicoState x s).horarioAtual <
        (comPicoState x s).config.horarioFim * 60) from h)]

theorem init_comPico (x : ℚ) (cfg : Config) (rng : ℕ → ℚ) (idx : ℕ) :
    SimuladorFerries.init (comPico x cfg) rng idx =
      comPicoState x (SimuladorFerries.init cfg rng idx) := rfl

theorem numTicks_comPico (x : ℚ) (cfg : Config) :
    numTicks (comPico x cfg) = numTicks cfg := rfl

theorem finalize_comPico (x : ℚ) (s : SimState) :
    finalize (comPicoState x s) = finalize s := rfl

/-- The `processar` never reads `percentualPico`: run results are invariant
under any override of that field. -/
theorem processar_comPico (x : ℚ) (cfg : Config) (rng : ℕ → ℚ) :
    processar (comPico x cfg) rng = processar cfg rng := by
  unfold processar processarState processarStateFrom
  rw [numTicks_comPico, init_comPico, loopN_comPico, finalize_comPico]

/-- Constant random stream: every draw is one half. -/
def rngHalf : ℕ → ℚ := fun _ => 1/2

/-- Random stream whose first draw is 0 (forcing a stochastic failure on
the first vessel check) and one half afterwards. -/
def rngFalha : ℕ → ℚ := fun i => if i = 0 then 0 else 1/2

/-- One vessel, a one-hour window, one arrival per hour. -/
def cfgTiny : Config :=
  { CONFIG with numEmbarcacoes := 1, horarioFim := 7, veiculosDiarios := 16 }

/-- One vessel, a two-hour window, no arrivals. -/
def cfgFalha : Config :=
  { CONFIG with numEmbarcacoes := 1, veiculosDiarios := 0, horarioFim := 8 }

/-- One vessel, a two-hour window, one arrival per hour: the vessel makes
one 80-minute crossing per 60-minute tick. -/
def cfgBusy : Config :=
  { CONFIG with numEmbarcacoes := 1, horarioFim := 8, veiculosDiarios := 16 }

/-- One vessel, one-hour window starting at 07:00, no generated arrivals
(the queue is prepopulated by hand in `estadoCheio`). -/
def cfgCheio : Config :=
  { CONFIG with numEmbarcacoes := 1, veiculosDiarios := 0,
                horarioInicio := 7, horarioFim := 8 }

/-- A queue of 120 vehicles, all already arrived (arrival instants
300..419, all at or before the current tick at minute 420). -/
def filaGrande : List Veiculo := (List.range 120).map fun i =>
  { id := 0, tipo := Tipo.carro, horarioChegada := 300 + (i : ℚ),
    horarioEmbarque := none, horarioDesembarque := none, tempoEspera := 0 }

/-- A fresh one-vessel simulator state facing the 120-vehicle ready
queue at minute 420. -/
def estadoCheio : SimState :=
  { SimuladorFerries.init cfgCheio rngHalf 0 with fila := filaGrande }

/-- Default configuration with daily volume zero. -/
def cfgZero : Config := { CONFIG with veiculosDiarios := 0 }

/-- Operating window end equal to its start: invalid per the spec. -/
def cfgDegenerada : Config := { CONFIG with horarioFim := CONFIG.horarioInicio }

/-- Step size zero: invalid per the spec. -/
def cfgSemPasso : Config := { CONFIG with frequenciaSaidaMinutos := 0 }

/-- Per-run overrides of the vessel capacity and the maintenance interval
(the fields claim C10 is about), volume zero to keep runs small. -/
def cfgOverride : Config :=
  { CONFIG with capacidadeVeiculos := 999, manutencaoDias := 1, veiculosDiarios := 0 }

/-- The single vehicle processed by `processar cfgTiny rngHalf`: drawn at
minute 390, boarded at minute 360, recorded wait -30. -/
def veiculoTeste : Veiculo :=
  { id := 1/2, tipo := Tipo.carro, horarioChegada := 390,
    horarioEmbarque := some 360, horarioDesembarque := some 440, tempoEspera := -30 }

unseal Rat.mul Rat.inv Rat.add Rat.sub in
/-- C1 counterexample: in the run of `processar` on `cfgTiny` with the
constant one-half stream, the single processed vehicle records
`tempoEspera = -30 < 0`; the non-negativity asserted by the claim is
false. -/
theorem c1_contraexemplo :
    (processarState cfgTiny rngHalf).veiculosProcessados.map (·.tempoEspera) = [-30] ∧
    ¬ ∀ v ∈ (processarState cfgTiny rngHalf).veiculosProcessados, 0 ≤ v.tempoEspera := by
  constructor
  · decide
  · decide

/-- C1 (amended): every vehicle in the processed history of a `processar`
run has `tempoEspera` equal to its boarding time minus its arrival time,
with no `max(0, _)` clamp, so the recorded wait is negative whenever the
drawn arrival instant lies later in the tick than the boarding instant. -/
theorem c1_espera_exata (cfg : Config) (rng : ℕ → ℚ) :
    ∀ v ∈ (processarState cfg rng).veiculosProcessados, EsperaExata v := by
  unfold processarState processarStateFrom
  apply loopN_espera
  intro v hv
  simp [SimuladorFerries.init] at hv

unseal Rat.mul Rat.inv Rat.add Rat.sub in
/-- Witness for C1's amended theorem at the concrete run of `cfgTiny`. -/
theorem c1_testemunha : EsperaExata veiculoTeste :=
  c1_espera_exata cfgTiny rngHalf veiculoTeste (by decide)

/-- C2: conservation.  For every run of `processar` from a fresh simulator,
the number of processed vehicles plus the number still queued equals the
total generated by the arrival generator (as logged by the `chegada`
events), and no vessel retains vehicles onboard at termination. -/
theorem c2_conservacao (cfg : Config) (rng : ℕ → ℚ) :
    (processar cfg rng).veiculosProcessados + (processar cfg rng).veiculosEmFila
      = chegadaTotal (processar cfg rng).eventos ∧
    ∀ e ∈ (processarState cfg rng).embarcacoes, e.veiculosAbordo = [] := by
  have h := loopN_conserva (numTicks cfg) (SimuladorFerries.init cfg rng 0)
    (by intro e he
        simp [SimuladorFerries.init] at he
        obtain ⟨i, _, rfl⟩ := he
        rfl)
    (by simp [SimuladorFerries.init, chegadaTotal])
  exact ⟨h.2, h.1⟩

/-- Witness for C2 at the concrete run of `cfgTiny`. -/
theorem c2_testemunha :
    (processar cfgTiny rngHalf).veiculosProcessados +
      (processar cfgTiny rngHalf).veiculosEmFila
      = chegadaTotal (processar cfgTiny rngHalf).eventos ∧
    ∀ e ∈ (processarState cfgTiny rngHalf).embarcacoes, e.veiculosAbordo = [] :=
  c2_conservacao cfgTiny rngHalf

theorem drop_min {α : Type} (l : List α) (k : ℕ) :
    l.drop (min k l.length) = l.drop k := by
  rcases le_total k l.length with h | h
  · rw [min_eq_left h]
  · rw [min_eq_right h, List.drop_length]
    exact (List.drop_eq_nil_of_le h).symm

unseal Rat.mul Rat.inv Rat.add Rat.sub in
/-- C3 counterexample: in the run of `processar` on `cfgTiny`, the single
processed vehicle has drawn arrival instant 390 yet boards at minute 360
of the same tick — the dispatcher boards vehicles whose arrival instant is
still in the future, so the claimed ready-set restriction is false. -/
theorem c3_contraexemplo :
    (processarState cfgTiny rngHalf).veiculosProcessados.map
      (fun v => (v.horarioChegada, v.horarioEmbarque)) = [(390, some 360)] ∧
    ¬ ∀ v ∈ (processarState cfgTiny rngHalf).veiculosProcessados,
        v.horarioChegada ≤ v.horarioEmbarque.getD v.horarioChegada := by
  constructor
  · decide
  · decide

/-- C3 (amended): on a tick, an available empty vessel that does not start
or remain in maintenance and does not fail boards exactly the first
`capacidade` vehicles of the shared FIFO queue, in queue order, with no
readiness filter and no reservation priority (the `Veiculo` record carries
no reservation attribute); the boarded batch is stamped and moved whole to
the processed history. -/
theorem c3_fifo_prefixo (cfg : Config) (s : SimState) (e : Embarcacao)
    (h1 : e.necessitaManutencao s.horarioAtual = false)
    (h2 : e.emManutencao = false)
    (h3 : ¬ s.rng s.rngIdx < cfg.taxaFalhas / 1000)
    (h4 : e.disponivel = true) (h5 : 0 < s.fila.length) (h6 : e.veiculosAbordo = []) :
    (processVessel cfg s e).1.fila = s.fila.drop e.capacidade ∧
    (processVessel cfg s e).1.veiculosProcessados = s.veiculosProcessados ++
      (loteEmbarcado s e.capacidade).map
        (marcaDesembarque (s.horarioAtual + cfg.tempoTravessiaMinutos)) := by
  rcases processVessel_cases cfg s e with
    ⟨g1, gx, heq⟩ | ⟨g1, gx, heq⟩ | ⟨g1, g2, gx, heq⟩ | ⟨g1, g2, gx, heq⟩ |
    ⟨g1, g2, g3, heq⟩ | ⟨g1, g2, g3, g4, g5, g6, heq⟩ | ⟨g1, g2, g3, g4, heq⟩
  · rw [h1] at g1; exact absurd g1 (by simp)
  · rw [h1] at g1; exact absurd g1 (by simp)
  · rw [h2] at g2; exact absurd g2 (by simp)
  · rw [h2] at g2; exact absurd g2 (by simp)
  · exact absurd g3 h3
  · rw [heq]
    constructor
    · show s.fila.drop (loteEmbarcado s (e.capacidade - e.veiculosAbordo.length)).length
        = s.fila.drop e.capacidade
      rw [h6]
      simp only [List.length_nil, Nat.sub_zero, loteEmbarcado, List.length_map,
        List.length_take]
      exact drop_min s.fila e.capacidade
    · show s.veiculosProcessados ++
        ((e.veiculosAbordo ++ loteEmbarcado s (e.capacidade - e.veiculosAbordo.length)).map
          (marcaDesembarque (s.horarioAtual + cfg.tempoTravessiaMinutos)))
        = s.veiculosProcessados ++ (loteEmbarcado s e.capacidade).map
            (marcaDesembarque (s.horarioAtual + cfg.tempoTravessiaMinutos))
      rw [h6]
      simp only [List.length_nil, Nat.sub_zero, List.nil_append]
  · exact absurd ⟨h4, h5, by rw [h6]; rfl⟩ g4

unseal Rat.mul Rat.inv Rat.add Rat.sub in
/-- Witness for C3's amended theorem: the fresh vessel facing the
120-vehicle queue at minute 420. -/
theorem c3_testemunha :
    (processVessel cfgCheio estadoCheio (Embarcacao.init 1)).1.fila =
      estadoCheio.fila.drop (Embarcacao.init 1).capacidade ∧
    (processVessel cfgCheio estadoCheio (Embarcacao.init 1)).1.veiculosProcessados =
      estadoCheio.veiculosProcessados ++
        (loteEmbarcado estadoCheio (Embarcacao.init 1).capacidade).map
          (marcaDesembarque (estadoCheio.horarioAtual + cfgCheio.tempoTravessiaMinutos)) :=
  c3_fifo_prefixo cfgCheio estadoCheio (Embarcacao.init 1) (by decide) (by decide)
    (by decide) (by decide) (by decide) (by decide)

set_option maxRecDepth 10000 in
unseal Rat.mul Rat.inv Rat.add Rat.sub in
/-- C4: capacity is respected on every crossing — every `desembarque`
event of every run departs with at most `CONFIG.capacidadeVeiculos = 50`
vehicles — and in the concrete scenario of a single available vessel of
capacity 50 facing 120 ready queued vehicles on one tick, exactly 50 board
(all with `horarioEmbarque = 420`, the current tick) and exactly 70 remain
queued. -/
theorem c4_capacidade (cfg : Config) (rng : ℕ → ℚ) :
    (∀ ev ∈ (processar cfg rng).eventos,
      ev.cabeNaCapacidade CONFIG.capacidadeVeiculos) ∧
    (tick estadoCheio).fila.length = 70 ∧
    (tick estadoCheio).veiculosProcessados.length = 50 ∧
    ∀ v ∈ (tick estadoCheio).veiculosProcessados, v.horarioEmbarque = some 420 := by
  refine ⟨?_, by decide, by decide, by decide⟩
  have h := loopN_eventosCapacidade (numTicks cfg) CONFIG.capacidadeVeiculos
    (SimuladorFerries.init cfg rng 0)
    (by intro e he
        simp [SimuladorFerries.init] at he
        obtain ⟨i, _, rfl⟩ := he
        rfl)
    (by simp [SimuladorFerries.init])
  exact h.2

unseal Rat.mul Rat.inv Rat.add Rat.sub in
/-- Witness for C4 at the concrete run of `cfgTiny`: its single
`desembarque` event carries one vehicle, within capacity. -/
theorem c4_testemunha :
    (Evento.desembarque 1 440 1).cabeNaCapacidade CONFIG.capacidadeVeiculos :=
  (c4_capacidade cfgTiny rngHalf).1 (Evento.desembarque 1 440 1) (by decide)

theorem loopN_of_done (n : ℕ) (s : SimState)
    (h : ¬ s.horarioAtual < s.config.horarioFim * 60) : loopN n s = s := by
  cases n with
  | zero => rfl
  | succ n => rw [loopN, if_neg h]

theorem loopN_nunca_termina (n : ℕ) : ∀ s : SimState,
    s.config.frequenciaSaidaMinutos ≤ 0 →
    s.horarioAtual < s.config.horarioFim * 60 →
    (loopN n s).horarioAtual < (loopN n s).config.horarioFim * 60 := by
  induction n with
  | zero =>
    intro s _ h
    exact h
  | succ n ih =>
    intro s hfreq h
    rw [loopN, if_pos h]
    apply ih
    · rw [tick_config]
      exact hfreq
    · rw [tick_config, tick_horarioAtual]
      linarith

/-- C5 counterexample: the engine performs no configuration validation.
With an operating window whose end equals its start (an invalid
configuration per the spec), `processar` returns a normal degenerate
result instead of raising a `ConfigurationError`; no error path exists
anywhere in the simulator. -/
theorem c5_contraexemplo :
    processar cfgDegenerada rngHalf =
      finalize (SimuladorFerries.init cfgDegenerada rngHalf 0) ∧
    (processar cfgDegenerada rngHalf).veiculosProcessados = 0 ∧
    (processar cfgDegenerada rngHalf).tempoSimulacao = 0 ∧
    (processar cfgDegenerada rngHalf).eventos = [] := by
  have h : processarState cfgDegenerada rngHalf =
      SimuladorFerries.init cfgDegenerada rngHalf 0 := by
    apply loopN_of_done
    show ¬ (6 : ℚ) * 60 < 6 * 60
    simp
  refine ⟨by rw [processar, h], ?_, ?_, ?_⟩
  · rw [processar, h]; rfl
  · rw [processar, h]
    show ((6 : ℚ) * 60 - 6 * 60) / 60 = 0
    norm_num
  · rw [processar, h]; rfl

/-- C5 (amended): the constructor and `processar` perform no validation
and define no `ConfigurationError`.  With window end at or before the
start the loop body never runs and a degenerate zero result is returned;
with step size ≤ 0 (and a nonempty window) the `while` condition stays
true after every number of iterations, so the loop never terminates —
in neither case does the engine refuse to run. -/
theorem c5_sem_validacao (cfg : Config) (rng : ℕ → ℚ) :
    (cfg.horarioFim ≤ cfg.horarioInicio →
      processarState cfg rng = SimuladorFerries.init cfg rng 0) ∧
    (cfg.frequenciaSaidaMinutos ≤ 0 → cfg.horarioInicio < cfg.horarioFim →
      ∀ n : ℕ, (loopN n (SimuladorFerries.init cfg rng 0)).horarioAtual <
        (loopN n (SimuladorFerries.init cfg rng 0)).config.horarioFim * 60) := by
  constructor
  · intro h
    apply loopN_of_done
    show ¬ cfg.horarioInicio * 60 < cfg.horarioFim * 60
    simp only [not_lt]
    linarith
  · intro hfreq hwin n
    apply loopN_nunca_termina
    · exact hfreq
    · show cfg.horarioInicio * 60 < cfg.horarioFim * 60
      linarith

/-- Witness for C5's amended theorem at the two concrete invalid
configurations. -/
theorem c5_testemunha :
    processarState cfgDegenerada rngHalf =
      SimuladorFerries.init cfgDegenerada rngHalf 0 ∧
    (loopN 5 (SimuladorFerries.init cfgSemPasso rngHalf 0)).horarioAtual <
      (loopN 5 (SimuladorFerries.init cfgSemPasso rngHalf 0)).config.horarioFim * 60 :=
  ⟨(c5_sem_validacao cfgDegenerada rngHalf).1 (by norm_num [cfgDegenerada, CONFIG]),
   (c5_sem_validacao cfgSemPasso rngHalf).2 (by norm_num [cfgSemPasso, CONFIG])
     (by norm_num [cfgSemPasso, CONFIG]) 5⟩

unseal Rat.mul Rat.inv Rat.add Rat.sub in
/-- C6: the code contradicts its own comment "Reparo leva 30 minutos".
With one vessel, no arrivals and a failure forced on the first tick
(time 360), the vessel is still unavailable when the next tick runs at
time 420 ≥ 360 + 30, and it remains unavailable at the end of the run:
the `setTimeout` recovery never fires inside the synchronous loop, so a
failed vessel never returns to service within the run. -/
theorem c6_falha_sem_recuperacao :
    (processarState cfgFalha rngFalha).eventos = [Evento.falha 1 360] ∧
    (processarState cfgFalha rngFalha).embarcacoes.map (·.disponivel) = [false] ∧
    (processarState cfgFalha rngFalha).horarioAtual = 480 ∧
    (loopN 1 (SimuladorFerries.init cfgFalha rngFalha 0)).embarcacoes.map (·.disponivel)
      = [false] ∧
    (loopN 1 (SimuladorFerries.init cfgFalha rngFalha 0)).horarioAtual = 420 := by
  refine ⟨by decide, by decide, by decide, by decide, by decide⟩

@[simp] theorem finalize_utilizacao (s : SimState) :
    (finalize s).utilizacaoEmbarcacoes = s.embarcacoes.map fun e =>
      { id := e.id,
        percentualUtilizacao := e.tempoTotalOcupado /
          (s.config.horarioFim * 60 - s.config.horarioInicio * 60) * 100,
        viagensRealizadas := e.viagensRealizadas } := rfl

unseal Rat.mul Rat.inv Rat.add Rat.sub in
/-- C7 counterexample: with one vessel kept busy for two ticks over a
two-hour window, the reported per-vessel utilization is
`160 / 120 × 100 = 400/3 > 100`; the engine does not cap it at 100%. -/
theorem c7_contraexemplo :
    (processar cfgBusy rngHalf).utilizacaoEmbarcacoes.map (·.percentualUtilizacao)
      = [400/3] ∧
    ¬ ∀ u ∈ (processar cfgBusy rngHalf).utilizacaoEmbarcacoes,
        u.percentualUtilizacao ≤ 100 := by
  constructor
  · decide
  · decide

theorem soma_min_le (lista : List Utilizacao) :
    (lista.map fun e => min 100 e.percentualUtilizacao).sum
      ≤ 100 * (lista.length : ℚ) := by
  induction lista with
  | nil => simp
  | cons a resto ih =>
    simp only [List.map_cons, List.sum_cons, List.length_cons]
    push_cast
    have hmin : min 100 a.percentualUtilizacao ≤ 100 := min_le_left _ _
    linarith

theorem mediaUtilizacao_le_cem (lista : List Utilizacao) : mediaUtilizacao lista ≤ 100 := by
  unfold mediaUtilizacao
  split_ifs with h
  · norm_num
  · have hlen : 0 < (lista.length : ℚ) := by
      exact_mod_cast Nat.pos_of_ne_zero h
    rw [div_le_iff₀ hlen]
    exact soma_min_le lista

/-- C7 (amended): every reported per-vessel utilization equals
`tempoTotalOcupado / windowMinutes × 100` and is non-negative for the
accepted configurations, but the engine does not cap it at 100 (it can
exceed 100, see the counterexample); the cap at 100 exists only in the
report module, whose capped mean `mediaUtilizacao` never exceeds 100. -/
theorem c7_utilizacao (cfg : Config) (rng : ℕ → ℚ)
    (htrav : 0 ≤ cfg.tempoTravessiaMinutos)
    (hwin : cfg.horarioInicio * 60 < cfg.horarioFim * 60) :
    (∀ u ∈ (processar cfg rng).utilizacaoEmbarcacoes,
      0 ≤ u.percentualUtilizacao ∧
      ∃ e ∈ (processarState cfg rng).embarcacoes,
        u.percentualUtilizacao =
          e.tempoTotalOcupado / (cfg.horarioFim * 60 - cfg.horarioInicio * 60) * 100) ∧
    ∀ lista : List Utilizacao, mediaUtilizacao lista ≤ 100 := by
  refine ⟨?_, fun lista => mediaUtilizacao_le_cem lista⟩
  intro u hu
  have hcfg : (processarState cfg rng).config = cfg := by
    unfold processarState processarStateFrom
    rw [loopN_config]
    rfl
  have hocup := loopN_ocupadoNaoNeg (numTicks cfg) (SimuladorFerries.init cfg rng 0)
    htrav
    (by intro e he
        simp [SimuladorFerries.init] at he
        obtain ⟨i, _, rfl⟩ := he
        exact le_refl 0)
  unfold processar at hu
  rw [finalize_utilizacao, hcfg] at hu
  obtain ⟨e, he, rfl⟩ := List.mem_map.mp hu
  have h0 : 0 ≤ e.tempoTotalOcupado := hocup e he
  have hw : (0:ℚ) < cfg.horarioFim * 60 - cfg.horarioInicio * 60 := by linarith
  refine ⟨?_, e, he, rfl⟩
  exact mul_nonneg (div_nonneg h0 hw.le) (by norm_num)

unseal Rat.mul Rat.inv Rat.add Rat.sub in
/-- Witness for C7's amended theorem at the concrete busy run. -/
theorem c7_testemunha :
    (∀ u ∈ (processar cfgBusy rngHalf).utilizacaoEmbarcacoes,
      0 ≤ u.percentualUtilizacao ∧
      ∃ e ∈ (processarState cfgBusy rngHalf).embarcacoes,
        u.percentualUtilizacao = e.tempoTotalOcupado /
          (cfgBusy.horarioFim * 60 - cfgBusy.horarioInicio * 60) * 100) ∧
    mediaUtilizacao [] ≤ 100 :=
  ⟨(c7_utilizacao cfgBusy rngHalf (by norm_num [cfgBusy, CONFIG])
      (by norm_num [cfgBusy, CONFIG])).1,
   (c7_utilizacao cfgBusy rngHalf (by norm_num [cfgBusy, CONFIG])
      (by norm_num [cfgBusy, CONFIG])).2 []⟩

unseal Rat.mul Rat.inv Rat.add Rat.sub in
/-- C8 counterexample: on the busy one-vessel configuration with the
constant one-half stream, `simularComReservas` reports
`melhoriaUtilizacao = 400/3`, yet the baseline and with-reservations runs
have identical per-vessel utilizations (the true delta is 0 ≠ 400/3): the
reported value is the second run's mean utilization, not a delta, and the
two runs do not differ through any reservation-rate parameter. -/
theorem c8_contraexemplo :
    (simularComReservas cfgBusy rngHalf (3/10)).melhorias.melhoriaUtilizacao = 400/3 ∧
    (simularComReservas cfgBusy rngHalf (3/10)).semReservas.utilizacaoEmbarcacoes =
      (simularComReservas cfgBusy rngHalf (3/10)).comReservas.utilizacaoEmbarcacoes ∧
    (400/3 : ℚ) ≠ 0 := by
  refine ⟨by decide, by decide, by norm_num⟩

/-- C8 (amended): `simularComReservas` runs `processar` twice; the second
run's configuration differs from the first only in `percentualPico`, a
field the engine never reads, so the two runs are the same computation
continued on the same random stream; and the reported `melhoriaUtilizacao`
is the second run's mean utilization, not a delta between the runs. -/
theorem c8_reservas_sem_efeito (cfg : Config) (rng : ℕ → ℚ) (pr : ℚ) :
    (∀ x : ℚ, processar (comPico x cfg) rng = processar cfg rng) ∧
    (simularComReservas cfg rng pr).semReservas = processar cfg rng ∧
    (simularComReservas cfg rng pr).comReservas =
      finalize (processarStateFrom cfg rng (processarState cfg rng).rngIdx) ∧
    (simularComReservas cfg rng pr).melhorias.melhoriaUtilizacao =
      ((simularComReservas cfg rng pr).comReservas.utilizacaoEmbarcacoes.map
        (·.percentualUtilizacao)).sum /
        ((simularComReservas cfg rng pr).comReservas.utilizacaoEmbarcacoes.length : ℚ) := by
  refine ⟨fun x => processar_comPico x cfg rng, rfl, ?_, rfl⟩
  show finalize (loopN
      (numTicks { cfg with percentualPico := cfg.percentualPico * (1 - pr) })
      (SimuladorFerries.init { cfg with percentualPico := cfg.percentualPico * (1 - pr) }
        rng (loopN (numTicks cfg) (SimuladorFerries.init cfg rng 0)).rngIdx)) =
    finalize (processarStateFrom cfg rng (processarState cfg rng).rngIdx)
  rw [show ({ cfg with percentualPico := cfg.percentualPico * (1 - pr) } : Config)
    = comPico (cfg.percentualPico * (1 - pr)) cfg from rfl]
  rw [numTicks_comPico, init_comPico, loopN_comPico, finalize_comPico]
  rfl

theorem finalize_proc_nil (s : SimState) (h : s.veiculosProcessados = []) :
    (finalize s).veiculosProcessados = 0 ∧ (finalize s).tempoMedioEspera = 0 ∧
    (finalize s).tempoMaximoEspera = 0 := by
  unfold finalize
  dsimp only
  rw [h]
  simp

/-- C9: zero-arrival boundary.  With daily volume 0 (and a positive step
size) `processar` terminates normally with zero processed vehicles, zero
mean and maximum wait (the empty-average convention), and zero utilization
for every vessel — no division blows up and no error is raised. -/
theorem c9_volume_zero (cfg : Config) (rng : ℕ → ℚ)
    (hvol : cfg.veiculosDiarios = 0) (hfreq : 0 < cfg.frequenciaSaidaMinutos) :
    (processar cfg rng).veiculosProcessados = 0 ∧
    (processar cfg rng).tempoMedioEspera = 0 ∧
    (processar cfg rng).tempoMaximoEspera = 0 ∧
    (∀ u ∈ (processar cfg rng).utilizacaoEmbarcacoes, u.percentualUtilizacao = 0) ∧
    cfg.horarioFim * 60 ≤ (processarState cfg rng).horarioAtual := by
  obtain ⟨hfila, hproc, hocup⟩ := loopN_zeroArrivals (numTicks cfg)
    (SimuladorFerries.init cfg rng 0) hvol rfl rfl
    (by intro e he
        simp [SimuladorFerries.init] at he
        obtain ⟨i, _, rfl⟩ := he
        rfl)
  obtain ⟨hn, hm, hx⟩ := finalize_proc_nil (processarState cfg rng) hproc
  refine ⟨hn, hm, hx, ?_, processarStateFrom_termina cfg rng 0 hfreq⟩
  intro u hu
  unfold processar at hu
  rw [finalize_utilizacao] at hu
  obtain ⟨e, he, rfl⟩ := List.mem_map.mp hu
  show e.tempoTotalOcupado / _ * 100 = 0
  rw [hocup e he, zero_div, zero_mul]

/-- Witness for C9 at the default configuration with volume zero. -/
theorem c9_testemunha :
    (processar cfgZero rngHalf).veiculosProcessados = 0 ∧
    (processar cfgZero rngHalf).tempoMedioEspera = 0 ∧
    (processar cfgZero rngHalf).tempoMaximoEspera = 0 ∧
    (∀ u ∈ (processar cfgZero rngHalf).utilizacaoEmbarcacoes,
      u.percentualUtilizacao = 0) ∧
    cfgZero.horarioFim * 60 ≤ (processarState cfgZero rngHalf).horarioAtual :=
  c9_volume_zero cfgZero rngHalf rfl (by norm_num [cfgZero, CONFIG])

/-- C10: `Embarcacao` reads the global `CONFIG`, not the per-run merged
configuration: whatever `capacidadeVeiculos` or `manutencaoDias` override
is passed, every vessel is created with capacity 50 and first maintenance
due at 43200 minutes, keeps capacity 50 during the whole run, and — when
the operating window ends at or before minute 43200, as the default
window (minute 1320) does — scheduled maintenance never triggers within a
single-day run. -/
theorem c10_config_global (cfg : Config) (rng : ℕ → ℚ) :
    (∀ e ∈ (SimuladorFerries.init cfg rng 0).embarcacoes,
      e.capacidade = 50 ∧ e.proximaManutencao = 43200) ∧
    (cfg.horarioFim * 60 ≤ 43200 →
      (∀ e ∈ (processarState cfg rng).embarcacoes,
        e.capacidade = 50 ∧ e.emManutencao = false) ∧
      ∀ ev ∈ (processarState cfg rng).eventos, ev.semManutencaoInicio) := by
  constructor
  · intro e he
    simp [SimuladorFerries.init] at he
    obtain ⟨i, _, rfl⟩ := he
    exact ⟨rfl, by norm_num [Embarcacao.init, CONFIG]⟩
  · intro hfim
    have hcap := loopN_eventosCapacidade (numTicks cfg) 50
      (SimuladorFerries.init cfg rng 0)
      (by intro e he
          simp [SimuladorFerries.init] at he
          obtain ⟨i, _, rfl⟩ := he
          rfl)
      (by simp [SimuladorFerries.init])
    have hman := loopN_semManutencao (numTicks cfg) (SimuladorFerries.init cfg rng 0)
      hfim
      (by intro e he
          simp [SimuladorFerries.init] at he
          obtain ⟨i, _, rfl⟩ := he
          exact ⟨by norm_num [Embarcacao.init, CONFIG], rfl⟩)
      (by simp [SimuladorFerries.init])
    exact ⟨fun e he => ⟨hcap.1 e he, (hman.1 e he).2⟩, hman.2⟩

/-- Witness for C10 at a configuration overriding both the capacity and
the maintenance interval. -/
theorem c10_testemunha :
    (∀ e ∈ (SimuladorFerries.init cfgOverride rngHalf 0).embarcacoes,
      e.capacidade = 50 ∧ e.proximaManutencao = 43200) ∧
    (∀ e ∈ (processarState cfgOverride rngHalf).embarcacoes,
      e.capacidade = 50 ∧ e.emManutencao = false) ∧
    ∀ ev ∈ (processarState cfgOverride rngHalf).eventos, ev.semManutencaoInicio :=
  ⟨(c10_config_global cfgOverride rngHalf).1,
   ((c10_config_global cfgOverride rngHalf).2 (by norm_num [cfgOverride, CONFIG])).1,
   ((c10_config_global cfgOverride rngHalf).2 (by norm_num [cfgOverride, CONFIG])).2⟩

unseal Rat.mul Rat.inv Rat.add Rat.sub in
/-- Witness for C8's amended theorem at the concrete busy run. -/
theorem c8_testemunha :
    (simularComReservas cfgBusy rngHalf (3/10)).semReservas =
      processar cfgBusy rngHalf ∧
    processar (comPico 0 cfgBusy) rngHalf = processar cfgBusy rngHalf :=
  ⟨(c8_reservas_sem_efeito cfgBusy rngHalf (3/10)).2.1,
   (c8_reservas_sem_efeito cfgBusy rngHalf (3/10)).1 0⟩
